import Mathlib

/-!
Verification development for the djin MoneyMonk automation controller.

The definitions below are a shallow embedding of the Python sources under
src/src/djin (common/config.py, common/errors.py,
features/accounting/playwright_client.py, features/accounting/commands.py,
features/accounting/agent.py, features/accounting/graph/*).  External
effects (the Playwright page, the keyring, the environment, the clock) are
modelled as explicit inputs; each observation site in the source gets its
own input field, so two distinct probes of the same selector are distinct
observations, exactly as two calls of page.is_visible are.

Transcription conventions: Python optional strings become Option String
with Python truthiness made explicit; exceptions become an error inductive
threaded through Except; string messages are transcribed without ASCII
apostrophe characters (the sources quote interpolated values with them);
numeric formatting of floats (str(hours)) is abstracted as a caller-supplied
string.
-/

/-- Python truthiness of an optional string: None and the empty string are
falsy, every other string is truthy. -/
def truthy : Option String → Bool
  | none => false
  | some s => !s.isEmpty

/-- Python `x or y` on optional strings: yields `x` when truthy, else `y`. -/
def pyOr (x y : Option String) : Option String :=
  if truthy x then x else y

/-- The exception classes that can cross the boundaries modelled here.
`configuration` and `moneyMonk` are djin.common.errors.ConfigurationError and
MoneyMonkError (both DjinError); `playwrightTimeout` is
playwright.sync_api.TimeoutError, a subclass of playwright.sync_api.Error
(`playwright`); `other` is any other Exception. -/
inductive PyError where
  | configuration (msg : String)
  | moneyMonk (msg : String)
  | playwrightTimeout (msg : String)
  | playwright (msg : String)
  | other (msg : String)
deriving DecidableEq, Repr

/-- str(e): the message carried by the exception. -/
def pyMsg : PyError → String
  | .configuration m => m
  | .moneyMonk m => m
  | .playwrightTimeout m => m
  | .playwright m => m
  | .other m => m

/-- `except PlaywrightError` matches playwright.sync_api.Error and its
subclass playwright.sync_api.TimeoutError. -/
def isPlaywrightError : PyError → Bool
  | .playwrightTimeout _ => true
  | .playwright _ => true
  | _ => false

/-- Process environment slice consumed by the accounting feature
(os.environ.get of each variable; None when unset). -/
structure EnvState where
  email : Option String
  password : Option String
  totpSecret : Option String
  loginUrl : Option String
  baseTimeEntryUrl : Option String
  djinMoneymonkUsername : Option String
deriving DecidableEq, Repr

/-- The moneymonk section of the on-disk config.json file. -/
structure MMSection where
  url : Option String
  username : Option String
  password : Option String
  totpSecret : Option String
deriving DecidableEq, Repr

/-- The resolved credential record returned by _get_moneymonk_credentials. -/
structure Creds where
  url : String
  username : String
  password : String
  totpSecret : String
deriving DecidableEq, Repr

def passwordKeyFor (username : String) : String :=
  "moneymonk_password_" ++ username

def totpKeyFor (username : String) : String :=
  "moneymonk_totp_" ++ username

/-- config.load_config, restricted to the moneymonk section: the file value,
overlaid with the Djin_MONEYMONK_USERNAME environment variable for the
username, then with the keyring secrets for the resulting username when the
keyring has them (config.py lines 58-88).  `keyring` maps a keyring key to
the stored secret, None when absent. -/
def loadConfigMM (file : MMSection) (env : EnvState)
    (keyring : String → Option String) : MMSection :=
  let username := if truthy env.djinMoneymonkUsername then
      env.djinMoneymonkUsername else file.username
  if truthy username then
    let kp := keyring (passwordKeyFor (username.getD ""))
    let kt := keyring (totpKeyFor (username.getD ""))
    { url := file.url
      username := username
      password := if truthy kp then kp else file.password
      totpSecret := if truthy kt then kt else file.totpSecret }
  else
    { file with username := username }

def urlUserMissingMsg : String :=
  "MoneyMonk URL or username not configured. Please run djin --setup or edit config."

def passwordMissingMsg : String :=
  "MoneyMonk password not found in keyring. Please run djin --setup to configure it."

def totpMissingMsg : String :=
  "MoneyMonk TOTP secret not found in keyring. Please run djin --setup to configure it."

/-- playwright_client._get_moneymonk_credentials (lines 27-80): if all four
environment variables are truthy they are returned directly; otherwise url
and username resolve environment-over-config (error when the merge is
falsy), while password and totp secret are fetched from the keyring only,
each raising ConfigurationError when absent. -/
def getMoneymonkCredentials (env : EnvState) (file : MMSection)
    (keyring : String → Option String) : Except PyError Creds :=
  if truthy env.loginUrl && truthy env.email && truthy env.password
      && truthy env.totpSecret then
    .ok { url := env.loginUrl.getD "", username := env.email.getD ""
          password := env.password.getD "", totpSecret := env.totpSecret.getD "" }
  else
    let mm := loadConfigMM file env keyring
    let url := pyOr env.loginUrl mm.url
    let username := pyOr env.email mm.username
    if !truthy url || !truthy username then
      .error (.configuration urlUserMissingMsg)
    else
      let password := keyring (passwordKeyFor (username.getD ""))
      let totpSecret := keyring (totpKeyFor (username.getD ""))
      if !truthy password then
        .error (.configuration passwordMissingMsg)
      else if !truthy totpSecret then
        .error (.configuration totpMissingMsg)
      else
        .ok { url := url.getD "", username := username.getD ""
              password := password.getD "", totpSecret := totpSecret.getD "" }

/-- Credential resolution as the specification words it (spec section 4.1):
for each required field, the environment value wins over the
configuration-file value, which wins over the secret-store value; a
ConfigurationError names the field that is still missing after the merge.
This follows the words of the spec, for comparison with
`getMoneymonkCredentials`, which follows the source. -/
def specPrecedenceResolve (env : EnvState) (file : MMSection)
    (keyring : String → Option String) : Except PyError Creds :=
  let user := pyOr env.email file.username
  let url := pyOr env.loginUrl file.url
  let password := pyOr (pyOr env.password file.password)
      (keyring (passwordKeyFor (user.getD "")))
  let totpSecret := pyOr (pyOr env.totpSecret file.totpSecret)
      (keyring (totpKeyFor (user.getD "")))
  if !truthy url then .error (.configuration ("missing credential field: url"))
  else if !truthy user then .error (.configuration ("missing credential field: username"))
  else if !truthy password then .error (.configuration ("missing credential field: password"))
  else if !truthy totpSecret then .error (.configuration ("missing credential field: totp seed"))
  else .ok { url := url.getD "", username := user.getD ""
             password := password.getD "", totpSecret := totpSecret.getD "" }

/-- Modelled from the spec: the TOTP generator of section 4.2 is provided by
the external pyotp library (playwright_client.py lines 198 and 312 call
pyotp.TOTP(totp_secret).now()), whose code is not part of this repository;
the definitions through `currentCode` below follow the words of the spec: a
pure function of the shared seed and the current time, standard 30-second
step, SHA1-based RFC 6238 algorithm with 6-digit output, the seed being a
base32 string.  Bytes are naturals below 256, words naturals below 2^32. -/
def rotl32 (n x : Nat) : Nat :=
  ((x <<< n) ||| (x >>> (32 - n))) % 2 ^ 32

def sha1K (i : Nat) : Nat :=
  if i < 20 then 0x5A827999
  else if i < 40 then 0x6ED9EBA1
  else if i < 60 then 0x8F1BBCDC
  else 0xCA62C1D6

def sha1F (i b c d : Nat) : Nat :=
  if i < 20 then (b &&& c) ||| ((b ^^^ 0xFFFFFFFF) &&& d)
  else if i < 40 then b ^^^ c ^^^ d
  else if i < 60 then (b &&& c) ||| (b &&& d) ||| (c &&& d)
  else b ^^^ c ^^^ d

/-- Big-endian bytes of `v`, `n` bytes wide. -/
def beBytes (n v : Nat) : List Nat :=
  (List.range n).map (fun i => v >>> (8 * (n - 1 - i)) % 256)

/-- 64 bytes to 16 big-endian 32-bit words. -/
def words16 (block : List Nat) : List Nat :=
  (List.range 16).map (fun i =>
    (block.getD (4 * i) 0) <<< 24 + (block.getD (4 * i + 1) 0) <<< 16
      + (block.getD (4 * i + 2) 0) <<< 8 + block.getD (4 * i + 3) 0)

/-- Extend 16 schedule words to 80. -/
def sha1Schedule (w16 : List Nat) : List Nat :=
  Nat.fold (fun j w =>
      w ++ [rotl32 1 ((w.getD (j + 13) 0) ^^^ (w.getD (j + 8) 0)
        ^^^ (w.getD (j + 2) 0) ^^^ (w.getD j 0))]) 64 w16

/-- One SHA-1 block compression. -/
def sha1Compress (h : List Nat) (block : List Nat) : List Nat :=
  let w := sha1Schedule (words16 block)
  let st := Nat.fold (fun i (st : Nat × Nat × Nat × Nat × Nat) =>
      let (a, b, c, d, e) := st
      let t := (rotl32 5 a + sha1F i b c d + e + sha1K i + w.getD i 0) % 2 ^ 32
      (t, a, rotl32 30 b, c, d)) 80
    (h.getD 0 0, h.getD 1 0, h.getD 2 0, h.getD 3 0, h.getD 4 0)
  [(h.getD 0 0 + st.1) % 2 ^ 32, (h.getD 1 0 + st.2.1) % 2 ^ 32,
   (h.getD 2 0 + st.2.2.1) % 2 ^ 32, (h.getD 3 0 + st.2.2.2.1) % 2 ^ 32,
   (h.getD 4 0 + st.2.2.2.2) % 2 ^ 32]

/-- Merkle-Damgard padding: 0x80, zeros to 56 mod 64, 8-byte bit length. -/
def sha1Pad (msg : List Nat) : List Nat :=
  let z := (120 - (msg.length + 1) % 64) % 64
  msg ++ [0x80] ++ List.replicate z 0 ++ beBytes 8 (msg.length * 8)

def chunks64Aux : Nat → List Nat → List (List Nat)
  | _, [] => []
  | 0, _ => []
  | fuel + 1, l => l.take 64 :: chunks64Aux fuel (l.drop 64)

/-- Split into 64-byte blocks (fuel keeps the recursion structural; one unit
of fuel per block suffices since a padded message is nonempty). -/
def chunks64 (l : List Nat) : List (List Nat) :=
  chunks64Aux l.length l

def sha1Init : List Nat :=
  [0x67452301, 0xEFCDAB89, 0x98BADCFE, 0x10325476, 0xC3D2E1F0]

/-- SHA-1 of a byte list, as 20 bytes. -/
def sha1 (msg : List Nat) : List Nat :=
  ((chunks64 (sha1Pad msg)).foldl sha1Compress sha1Init).foldr
    (fun w acc => beBytes 4 w ++ acc) []

/-- HMAC-SHA1 (RFC 2104). -/
def hmacSha1 (key msg : List Nat) : List Nat :=
  let k0 := if key.length > 64 then sha1 key else key
  let k := k0 ++ List.replicate (64 - k0.length) 0
  sha1 ((k.map (fun b => b ^^^ 0x5C)) ++ sha1 ((k.map (fun b => b ^^^ 0x36)) ++ msg))

/-- HOTP (RFC 4226) with 6 digits: dynamic truncation of the HMAC. -/
def hotp6 (key : List Nat) (counter : Nat) : Nat :=
  let h := hmacSha1 key (beBytes 8 counter)
  let off := h.getD 19 0 &&& 0xF
  (((h.getD off 0 &&& 0x7F) <<< 24) + (h.getD (off + 1) 0 <<< 16)
    + (h.getD (off + 2) 0 <<< 8) + h.getD (off + 3) 0) % 10 ^ 6

/-- Base32 character value (case folded, as pyotp decodes). -/
def b32Val (c : Char) : Option Nat :=
  if ('A' ≤ c ∧ c ≤ 'Z') then some (c.toNat - 65)
  else if ('a' ≤ c ∧ c ≤ 'z') then some (c.toNat - 97)
  else if ('2' ≤ c ∧ c ≤ '7') then some (c.toNat - 50 + 26)
  else none

/-- Base32 decoding of the shared seed: 5-bit groups packed big-endian,
trailing partial bits dropped, padding and foreign characters ignored. -/
def base32Decode (s : String) : List Nat :=
  let vals := s.data.filterMap b32Val
  let total := vals.foldl (fun a v => a * 32 + v) 0
  let extra := 5 * vals.length % 8
  beBytes (5 * vals.length / 8) (total >>> extra)

/-- Zero-padded 6-digit decimal rendering (equals str plus zero fill for
values below 10^6, which `hotp6` guarantees). -/
def sixDigits (n : Nat) : String :=
  String.mk ((List.range 6).map (fun i => Char.ofNat (48 + n / 10 ^ (5 - i) % 10)))

/-- currentCode(seed, now): the 6-digit TOTP code for the base32 seed at
`now` seconds, 30-second step. -/
def currentCode (seed : String) (now : Nat) : String :=
  sixDigits (hotp6 (base32Decode seed) (now / 30))

def rfcSeed : String := "GEZDGNBVGY3TQOJQGEZDGNBVGY3TQOJQ"

/-- The resources of one automation session, in teardown order
(playwright_context lines 105-126 closes page, then context, then browser,
then stops the playwright process). -/
inductive Resource where
  | page
  | context
  | browser
  | pw
deriving DecidableEq, Repr

/-- How far resource acquisition got (playwright_context lines 93-99): each
acquisition step may raise a PlaywrightError with the given message, leaving
the later handles unassigned (None). -/
inductive SetupOutcome where
  | failStart (msg : String)
  | failLaunch (msg : String)
  | failNewContext (msg : String)
  | failNewPage (msg : String)
  | ok
deriving DecidableEq, Repr

/-- The handles that are non-None in the finally block, in the order the
block closes them. -/
def acquiredOf : SetupOutcome → List Resource
  | .failStart _ => []
  | .failLaunch _ => [.pw]
  | .failNewContext _ => [.browser, .pw]
  | .failNewPage _ => [.context, .browser, .pw]
  | .ok => [.page, .context, .browser, .pw]

/-- What each close/stop call does during teardown: None means it returns
normally, otherwise it raises the given error. -/
structure TeardownBehavior where
  pageClose : Option PyError
  contextClose : Option PyError
  browserClose : Option PyError
  pwStop : Option PyError
deriving DecidableEq, Repr

def closeOutcome (td : TeardownBehavior) : Resource → Option PyError
  | .page => td.pageClose
  | .context => td.contextClose
  | .browser => td.browserClose
  | .pw => td.pwStop

/-- Whether the source swallows an error raised while releasing `r`: page,
context and browser closes are guarded by `except PlaywrightError` only
(lines 109, 114, 119); pw.stop is guarded by `except Exception` (line 125). -/
def teardownSwallows : Resource → PyError → Bool
  | .pw, _ => true
  | _, e => isPlaywrightError e

/-- The finally block of playwright_context: attempt each acquired resource
in order; a swallowed error is logged and the block continues; an
unswallowed error propagates at once, skipping the remaining closes and
replacing the in-flight result.  Returns the final result and the list of
close calls that were attempted. -/
def runTeardown (td : TeardownBehavior) :
    List Resource → Except PyError α → Except PyError α × List Resource
  | [], res => (res, [])
  | r :: rest, res =>
    match closeOutcome td r with
    | none =>
      let (res1, closed) := runTeardown td rest res
      (res1, r :: closed)
    | some e =>
      if teardownSwallows r e then
        let (res1, closed) := runTeardown td rest res
        (res1, r :: closed)
      else
        (.error e, [r])

def initFailedMsg (m : String) : String :=
  "Failed to initialize Playwright browser: " ++ m

/-- The try/except of playwright_context (lines 93-104): a PlaywrightError
raised during setup, or propagating out of the body through the yield, is
re-raised as MoneyMonkError; everything else passes through. -/
def contextExcept (res : Except PyError α) : Except PyError α :=
  match res with
  | .error e => if isPlaywrightError e then .error (.moneyMonk (initFailedMsg (pyMsg e))) else .error e
  | .ok a => .ok a

/-- One run of `with playwright_context(...) as page: body`: acquire, run
the body when acquisition succeeded, apply the except clause, then always
run the finally block over the acquired handles.  Returns the overall
result and the attempted teardown calls in order. -/
def playwrightContextRun (setup : SetupOutcome) (td : TeardownBehavior)
    (body : Except PyError α) : Except PyError α × List Resource :=
  let inflight : Except PyError α :=
    match setup with
    | .failStart m => contextExcept (.error (.playwright m))
    | .failLaunch m => contextExcept (.error (.playwright m))
    | .failNewContext m => contextExcept (.error (.playwright m))
    | .failNewPage m => contextExcept (.error (.playwright m))
    | .ok => contextExcept body
  runTeardown td (acquiredOf setup) inflight

/-- A teardown behavior in which every error the close calls raise is of the
kind their handler swallows. -/
def tdSwallowable (td : TeardownBehavior) : Prop :=
  (∀ e, td.pageClose = some e → isPlaywrightError e = true) ∧
  (∀ e, td.contextClose = some e → isPlaywrightError e = true) ∧
  (∀ e, td.browserClose = some e → isPlaywrightError e = true)

/-- A teardown in which every close succeeds. -/
def tdClean : TeardownBehavior := ⟨none, none, none, none⟩

/-- Page interactions, recorded in source order as the run trace. -/
inductive Ev where
  | goto (url : String)
  | waitTimeout (ms : Nat)
  | fill (sel val : String)
  | click (sel : String)
  | isVisible (sel : String)
  | screenshot (name : String)
  | waitSelector (sel : String)
  | content
  | textContent (sel : String)
  | querySelectorAll (sel : String)
  | clickNth (sel : String) (idx : Nat)
deriving DecidableEq, Repr

def emailSel : String := "#email"
def passwordSel : String := "#password"
def codeSel : String := "#code"
def loginBtnSel : String := "button[data-testid=button]"
def addEntrySel : String := "button:has-text(Add time entry)"
def descSel : String := "textarea[placeholder=Description]"
def hoursSel : String := "input[placeholder=Hours]"
def submitSel : String := "button:has-text(Save)"
def errorSelectors : List String := [".error-message", ".alert-error", "text=Error", "text=Failed"]

def loginFailedRegMsg : String := "Login failed, cannot register hours."
def baseUrlMissingMsg : String :=
  "BASE_TIME_ENTRY_URL not set in environment. Please add it to your .env file."
def formElementsMsg (m : String) : String :=
  "Could not find registration form elements: " ++ m
def regFailedMsg (m : String) : String := "Hour registration failed: " ++ m

/-- One concrete run of the page as seen by register_hours_on_website: one
field per observation site of the source (the line numbers refer to
playwright_client.py).  `Option String` wait fields are None when the
element became visible in time and carry the timeout message otherwise;
`Option PyError` screenshot fields are None when the capture succeeded. -/
structure RegPageRun where
  codeVisibleAfterLogin : Bool            -- line 309
  emailVisibleAtCheck : Bool              -- line 328, first probe
  passwordVisibleAtCheck : Bool           -- line 328, second probe
  codeVisibleAtCheck : Bool               -- line 328, third probe
  shotRegistrationPage : Option PyError   -- line 358
  addEntryVisible : Bool                  -- line 368
  descWait : Option String                -- line 390
  hoursWait : Option String               -- line 393
  submitWait : Option String              -- line 396
  shotFormTimeout : Option PyError        -- line 400
  shotBeforeSubmit : Option PyError       -- line 417
  shotAfterSubmit : Option PyError        -- line 429
  shotAfterSubmitFinal : Option PyError   -- line 443
  descVisibleCheck1 : Bool                -- line 447, first probe
  hoursVisibleCheck1 : Bool               -- line 447, second probe
  entryVisible : Bool                     -- line 454
  descVisibleCheck2 : Bool                -- line 464, first probe
  hoursVisibleCheck2 : Bool               -- line 464, second probe
  errorSelVisible : String → Bool         -- line 472
  errorText : String → Option String      -- line 474; None when text_content raises

/-- The credential block at the top of the with-body (lines 275-287): use
the four environment variables when all are truthy, otherwise call
_get_moneymonk_credentials and keep any truthy environment value over the
returned one. -/
def resolveInBody (env : EnvState) (file : MMSection)
    (keyring : String → Option String) : Except PyError Creds :=
  if truthy env.email && truthy env.password && truthy env.totpSecret
      && truthy env.loginUrl then
    .ok { url := env.loginUrl.getD "", username := env.email.getD ""
          password := env.password.getD "", totpSecret := env.totpSecret.getD "" }
  else
    match getMoneymonkCredentials env file keyring with
    | .error e => .error e
    | .ok c =>
      .ok { url := (pyOr env.loginUrl (some c.url)).getD ""
            username := (pyOr env.email (some c.username)).getD ""
            password := (pyOr env.password (some c.password)).getD ""
            totpSecret := (pyOr env.totpSecret (some c.totpSecret)).getD "" }

/-- The error-message scan of lines 468-478: walk the error selectors; for a
visible one try text_content, keeping the text and breaking on success,
passing (and moving on) when it raises.  Returns the final error_message
(initially Unknown error) and the page interactions performed. -/
def regErrorScan (pr : RegPageRun) : List String → String × List Ev
  | [] => ("Unknown error", [])
  | s :: rest =>
    if pr.errorSelVisible s then
      match pr.errorText s with
      | some txt => (txt, [.isVisible s, .textContent s])
      | none =>
        let (m, evs) := regErrorScan pr rest
        (m, .isVisible s :: .textContent s :: evs)
    else
      let (m, evs) := regErrorScan pr rest
      (m, .isVisible s :: evs)

/-- The second post-submission check (lines 464-480): when either field is
still visible, scan for an error message and raise MoneyMonkError; when
neither probe sees the form, fall through to line 484 and return True. -/
def regCheck2 (pr : RegPageRun) (pre : List Ev) : Except PyError Bool × List Ev :=
  if pr.descVisibleCheck2 then
    let (m, evs) := regErrorScan pr errorSelectors
    (.error (.moneyMonk (regFailedMsg m)), pre ++ [.isVisible descSel] ++ evs)
  else if pr.hoursVisibleCheck2 then
    let (m, evs) := regErrorScan pr errorSelectors
    (.error (.moneyMonk (regFailedMsg m)), pre ++ [.isVisible descSel, .isVisible hoursSel] ++ evs)
  else
    (.ok true, pre ++ [.isVisible descSel, .isVisible hoursSel])

/-- The post-submission verification (lines 447-484): when the first check
sees neither the description nor the hours field, look for the new entry in
the list (best effort) and return True; otherwise run the second check. -/
def regPostSubmit (pr : RegPageRun) (description : String) :
    Except PyError Bool × List Ev :=
  if !pr.descVisibleCheck1 then
    if !pr.hoursVisibleCheck1 then
      (.ok true, [.isVisible descSel, .isVisible hoursSel,
        .isVisible ("text=" ++ description)])
    else
      regCheck2 pr [.isVisible descSel, .isVisible hoursSel]
  else
    regCheck2 pr [.isVisible descSel]

/-- The handler of lines 397-402: an unguarded diagnostic screenshot, then
MoneyMonkError naming the missing form elements.  When the screenshot
itself raises, that error propagates instead. -/
def regFormTimeout (pr : RegPageRun) (m : String) (pre : List Ev) :
    Except PyError Bool × List Ev :=
  match pr.shotFormTimeout with
  | some e => (.error e, pre ++ [.screenshot ("form_timeout")])
  | none => (.error (.moneyMonk (formElementsMsg m)), pre ++ [.screenshot ("form_timeout")])

/-- The form interaction of lines 361-445: optional add-entry click, the
three guarded waits, the fills, screenshots and the submit click, ending in
the post-submission verification. -/
def regFormPhase (pr : RegPageRun) (description hoursStr : String) (pre : List Ev) :
    Except PyError Bool × List Ev :=
  let evs0 := pre ++ [.isVisible addEntrySel]
    ++ (if pr.addEntryVisible then [.click addEntrySel, .waitTimeout 1000] else [])
    ++ [.content]
  match pr.descWait with
  | some m => regFormTimeout pr m (evs0 ++ [.waitSelector descSel])
  | none =>
  match pr.hoursWait with
  | some m => regFormTimeout pr m (evs0 ++ [.waitSelector descSel, .waitSelector hoursSel])
  | none =>
  match pr.submitWait with
  | some m => regFormTimeout pr m
      (evs0 ++ [.waitSelector descSel, .waitSelector hoursSel, .waitSelector submitSel])
  | none =>
  let evs1 := evs0 ++ [.waitSelector descSel, .waitSelector hoursSel, .waitSelector submitSel,
    .fill descSel description, .fill hoursSel hoursStr]
  match pr.shotBeforeSubmit with
  | some e => (.error e, evs1 ++ [.screenshot ("before_submit")])
  | none =>
  let evs2 := evs1 ++ [.screenshot ("before_submit"), .click submitSel, .waitTimeout 3000]
  match pr.shotAfterSubmit with
  | some e => (.error e, evs2 ++ [.screenshot ("after_submit")])
  | none =>
  let evs3 := evs2 ++ [.screenshot ("after_submit"), .waitTimeout 2000]
  match pr.shotAfterSubmitFinal with
  | some e => (.error e, evs3 ++ [.screenshot ("after_submit_final")])
  | none =>
  let (r, evs4) := regPostSubmit pr description
  (r, evs3 ++ [.screenshot ("after_submit_final")] ++ evs4)

/-- The navigation to the hour-registration page, lines 333-359: the BASE
url comes from os.environ only, checked after authentication; then the
dated url is opened and a diagnostic screenshot taken. -/
def regNavigationPhase (pr : RegPageRun) (env : EnvState)
    (entryDate description hoursStr : String) (pre : List Ev) :
    Except PyError Bool × List Ev :=
  if !truthy env.baseTimeEntryUrl then
    (.error (.configuration baseUrlMissingMsg), pre)
  else
    let url := env.baseTimeEntryUrl.getD "" ++ "?date=" ++ entryDate
    let evs0 := pre ++ [.goto url, .waitTimeout 2000]
    match pr.shotRegistrationPage with
    | some e => (.error e, evs0 ++ [.screenshot ("registration_page")])
    | none =>
      regFormPhase pr description hoursStr (evs0 ++ [.screenshot ("registration_page")])

/-- The with-body of register_hours_on_website (lines 270-484): resolve
credentials, run the login handshake with its conditional TOTP step, fail
hard when the login or code fields are still visible, then navigate and
drive the entry form.  `now` is the clock read by the TOTP generator at
fill time and `today` the current date used when `date` is empty. -/
def registerHoursBody (pr : RegPageRun) (env : EnvState) (file : MMSection)
    (keyring : String → Option String) (date description hoursStr : String)
    (now : Nat) (today : String) : Except PyError Bool × List Ev :=
  match resolveInBody env file keyring with
  | .error e => (.error e, [])
  | .ok creds =>
    let evs0 : List Ev := [.goto creds.url, .waitTimeout 2000,
      .fill emailSel creds.username, .fill passwordSel creds.password,
      .click loginBtnSel, .waitTimeout 2000, .isVisible codeSel]
    let evs1 := evs0 ++ (if pr.codeVisibleAfterLogin then
      [.fill codeSel (currentCode creds.totpSecret now), .click loginBtnSel,
        .waitTimeout 2000] else [])
    if pr.emailVisibleAtCheck then
      (.error (.moneyMonk loginFailedRegMsg), evs1 ++ [.isVisible emailSel])
    else if pr.passwordVisibleAtCheck then
      (.error (.moneyMonk loginFailedRegMsg),
        evs1 ++ [.isVisible emailSel, .isVisible passwordSel])
    else if pr.codeVisibleAtCheck then
      (.error (.moneyMonk loginFailedRegMsg),
        evs1 ++ [.isVisible emailSel, .isVisible passwordSel, .isVisible codeSel])
    else
      let entryDate := if date.isEmpty then today else date
      regNavigationPhase pr env entryDate description hoursStr
        (evs1 ++ [.isVisible emailSel, .isVisible passwordSel, .isVisible codeSel])

/-- The except clauses of lines 486-497: DjinErrors pass through, Playwright
errors and anything else are wrapped as MoneyMonkError. -/
def regOuterExcept (res : Except PyError Bool) : Except PyError Bool :=
  match res with
  | .ok b => .ok b
  | .error (.configuration m) => .error (.configuration m)
  | .error (.moneyMonk m) => .error (.moneyMonk m)
  | .error (.playwrightTimeout m) =>
    .error (.moneyMonk ("Operation timed out during registration: " ++ m))
  | .error (.playwright m) =>
    .error (.moneyMonk ("A browser automation error occurred during registration: " ++ m))
  | .error (.other m) =>
    .error (.moneyMonk ("An unexpected error during hour registration: " ++ m))

/-- register_hours_on_website (lines 246-497): the with-body above run under
playwright_context, then the outer except clauses.  Returns the result, the
page interactions of the body (empty when setup failed before the yield)
and the attempted teardown calls. -/
def registerHoursOnWebsite (setup : SetupOutcome) (td : TeardownBehavior)
    (pr : RegPageRun) (env : EnvState) (file : MMSection)
    (keyring : String → Option String) (date description hoursStr : String)
    (now : Nat) (today : String) :
    Except PyError Bool × List Ev × List Resource :=
  let body := registerHoursBody pr env file keyring date description hoursStr now today
  let (res, closed) := playwrightContextRun setup td body.1
  (regOuterExcept res, (if setup = .ok then body.2 else []), closed)

def stillLoginMsg : String :=
  "Login failed: Still on login screen. Credentials may be incorrect."
def stillTotpMsg : String :=
  "Login failed: Still on TOTP screen. TOTP code may be incorrect or not accepted."

/-- One concrete run of the page as seen by login_to_moneymonk, one field
per observation site (line numbers of playwright_client.py). -/
structure LoginPageRun where
  shotBeforeTotp : Option PyError         -- line 192
  codeVisibleAfterLogin : Bool            -- line 195
  shotAfterLogin : Option PyError         -- line 216
  emailVisibleAtCheck : Bool              -- line 222, first probe
  passwordVisibleAtCheck : Bool           -- line 222, second probe
  codeVisibleAtCheck : Bool               -- line 225

/-- The with-body of login_to_moneymonk (lines 168-230). -/
def loginBody (pr : LoginPageRun) (creds : Creds) (now : Nat) :
    Except PyError Bool × List Ev :=
  let evs0 : List Ev := [.goto creds.url, .waitTimeout 2000,
    .fill emailSel creds.username, .fill passwordSel creds.password,
    .click loginBtnSel, .waitTimeout 2000]
  match pr.shotBeforeTotp with
  | some e => (.error e, evs0 ++ [.screenshot ("before_totp")])
  | none =>
  let evs1 := evs0 ++ [.screenshot ("before_totp"), .isVisible codeSel]
    ++ (if pr.codeVisibleAfterLogin then
      [.fill codeSel (currentCode creds.totpSecret now), .click loginBtnSel,
        .waitTimeout 2000] else [])
  match pr.shotAfterLogin with
  | some e => (.error e, evs1 ++ [.screenshot ("after_login")])
  | none =>
  let evs2 := evs1 ++ [.screenshot ("after_login")]
  if pr.emailVisibleAtCheck then
    (.error (.moneyMonk stillLoginMsg), evs2 ++ [.isVisible emailSel])
  else if pr.passwordVisibleAtCheck then
    (.error (.moneyMonk stillLoginMsg), evs2 ++ [.isVisible emailSel, .isVisible passwordSel])
  else if pr.codeVisibleAtCheck then
    (.error (.moneyMonk stillTotpMsg),
      evs2 ++ [.isVisible emailSel, .isVisible passwordSel, .isVisible codeSel])
  else
    (.ok true, evs2 ++ [.isVisible emailSel, .isVisible passwordSel, .isVisible codeSel])

/-- The except clauses of lines 232-243. -/
def loginOuterExcept (res : Except PyError Bool) : Except PyError Bool :=
  match res with
  | .ok b => .ok b
  | .error (.configuration m) => .error (.configuration m)
  | .error (.moneyMonk m) => .error (.moneyMonk m)
  | .error (.playwrightTimeout m) =>
    .error (.moneyMonk ("Operation timed out during login: " ++ m))
  | .error (.playwright m) =>
    .error (.moneyMonk ("A browser automation error occurred during login: " ++ m))
  | .error (.other m) =>
    .error (.moneyMonk ("An unexpected error during login: " ++ m))

/-- login_to_moneymonk (lines 132-243): credentials are resolved before the
session opens (lines 148-164), then the with-body runs under
playwright_context and the outer except clauses apply. -/
def loginToMoneymonk (setup : SetupOutcome) (td : TeardownBehavior)
    (pr : LoginPageRun) (env : EnvState) (file : MMSection)
    (keyring : String → Option String) (now : Nat) :
    Except PyError Bool × List Ev × List Resource :=
  match resolveInBody env file keyring with
  | .error e => (loginOuterExcept (.error e), [], [])
  | .ok creds =>
    let body := loginBody pr creds now
    let (res, closed) := playwrightContextRun setup td body.1
    (loginOuterExcept res, (if setup = .ok then body.2 else []), closed)

def timeInputSel : String := "input#time"
def cmdDescSel : String := "input#description"
def projectTriggerSel : String := "div.react-select__control"
def projectOptionSel : String := "div[class*=react-select__option]"
def projectNameToSelect : String := "AION Titan Streaming PI"
def specificProjectOptionSel : String :=
  projectOptionSel ++ ":has-text(" ++ projectNameToSelect ++ ")"
def selectedProjectValueSel : String := "div[class*=react-select__single-value]"
def verifyHasTextSel : String :=
  selectedProjectValueSel ++ ":has-text(" ++ projectNameToSelect ++ ")"
def cmdSubmitSel : String := "button[data-testid=button]:has-text(Toevoegen)"

/-- One concrete run of the page as seen by the form-interaction part of
commands.login_command (commands.py lines 193-297), one field per
observation site.  The Option PyError fields are None when the call
returns and carry the raised error otherwise; a raise after the option
click is routed through the handlers at line 273 (PlaywrightTimeoutError)
or line 280 (Exception), both of which return False.  The screenshots
inside those two handlers (lines 277 and 284) are modelled as succeeding:
a raise there would propagate through the context manager to the outer
except clauses at lines 298-310, which also return False, so the overall
result is unchanged. -/
structure CmdPageRun where
  timeInputVisible : Bool                 -- line 193
  addEntryVisible : Bool                  -- line 200
  optionsWait : Option String             -- line 220; timeout message when it fails
  optionCount : Nat                       -- line 228-229, len(query_selector_all)
  textMatchClick : Option String          -- line 236; timeout message when no option matches
  verifyWait : Option PyError             -- line 243, wait_for_selector timeout 3000
  verifyTextRead : Option PyError         -- line 244, text_content timeout 1000
  verifyTextReadOnFail : Option PyError   -- line 250, text_content timeout 500
  verifyShot : Option PyError             -- line 254, screenshot in the 249 handler
  submitClick : Option PyError            -- line 267, the Toevoegen submit click

/-- The handlers of lines 273-286: PlaywrightTimeoutError takes the line-273
arm (form_fill_timeout screenshot), every other exception the line-280 arm
(form_fill_error screenshot); both return False. -/
def cmdFillHandler (e : PyError) (pre : List Ev) : Bool × List Ev :=
  match e with
  | .playwrightTimeout _ => (false, pre ++ [.screenshot ("form_fill_timeout")])
  | _ => (false, pre ++ [.screenshot ("form_fill_error")])

/-- Lines 260-271: the pre-submit wait, the Toevoegen submit click - whose
raise is converted to False by the line 273/280 handlers - and the final
wait. -/
def cmdSubmitStep (pr : CmdPageRun) (pre : List Ev) : Bool × List Ev :=
  let evs0 := pre ++ [.waitTimeout 1000, .click cmdSubmitSel]
  match pr.submitClick with
  | some e => cmdFillHandler e evs0
  | none => (true, evs0 ++ [.waitTimeout 1000])

/-- The except PlaywrightTimeoutError handler of lines 249-255: read the
current selector value (a raise here escapes to the line 273/280 handlers),
take the verification-failed screenshot (same), then fall through to the
submit step - the mismatch itself is only logged (soft failure). -/
def cmdVerifyFailBranch (pr : CmdPageRun) (pre : List Ev) : Bool × List Ev :=
  let evs0 := pre ++ [.textContent selectedProjectValueSel]
  match pr.verifyTextReadOnFail with
  | some e => cmdFillHandler e evs0
  | none =>
    let evs1 := evs0 ++ [.screenshot ("project_selection_verification_failed")]
    match pr.verifyShot with
    | some e => cmdFillHandler e evs1
    | none => cmdSubmitStep pr evs1

/-- Lines 238-271: the selection verification - its try at line 241 catches
only PlaywrightTimeoutError (entering `cmdVerifyFailBranch`); any other
raise from the wait or the text read escapes to the line 273/280 handlers -
followed by the submit step. -/
def cmdVerifyAndSubmit (pr : CmdPageRun) (pre : List Ev) : Bool × List Ev :=
  let evs0 := pre ++ [.waitTimeout 500, .waitSelector verifyHasTextSel]
  match pr.verifyWait with
  | some (.playwrightTimeout _) => cmdVerifyFailBranch pr evs0
  | some e => cmdFillHandler e evs0
  | none =>
    let evs1 := evs0 ++ [.textContent selectedProjectValueSel]
    match pr.verifyTextRead with
    | some (.playwrightTimeout _) => cmdVerifyFailBranch pr evs1
    | some e => cmdFillHandler e evs1
    | none => cmdSubmitStep pr evs1

/-- The form interaction of login_command (commands.py lines 193-297): fill
hours and description, open the project dropdown, wait for its options,
click the second one when at least two rendered, otherwise fall back to a
text-contains click that times out (PlaywrightTimeoutError, handler at line
273 returns False) when no option matches the configured name. -/
def loginCommandFormFill (pr : CmdPageRun) (hoursStr description : String) :
    Bool × List Ev :=
  if !pr.timeInputVisible then
    (false, [.isVisible timeInputSel, .screenshot ("time_input_not_found")])
  else
    let evs0 := [.isVisible timeInputSel, .isVisible addEntrySel]
      ++ (if pr.addEntryVisible then [.click addEntrySel, .waitTimeout 1000] else [])
      ++ [.fill timeInputSel hoursStr, .fill cmdDescSel description,
        .click projectTriggerSel]
    match pr.optionsWait with
    | some _ =>
      (false, evs0 ++ [.waitSelector projectOptionSel, .screenshot ("form_fill_timeout")])
    | none =>
      let evs1 := evs0 ++ [.waitSelector projectOptionSel, .waitTimeout 500,
        .querySelectorAll projectOptionSel]
      if pr.optionCount ≥ 2 then
        cmdVerifyAndSubmit pr (evs1 ++ [.clickNth projectOptionSel 1])
      else
        match pr.textMatchClick with
        | some _ =>
          (false, evs1 ++ [.click specificProjectOptionSel, .screenshot ("form_fill_timeout")])
        | none =>
          cmdVerifyAndSubmit pr (evs1 ++ [.click specificProjectOptionSel])

/-- A Python float as the hours validation observes it: a finite value, or
one of the non-finite values whose comparisons with zero all answer False
except that negative infinity is below zero. -/
inductive PyFloat where
  | finite (q : ℚ)
  | nan
  | inf
  | ninf
deriving DecidableEq, Repr

/-- Python `x <= 0` on a float: False for nan and positive infinity. -/
def pyFloatLeZero : PyFloat → Bool
  | .finite q => q ≤ 0
  | .nan => false
  | .inf => false
  | .ninf => true

deriving instance DecidableEq for Except

/-- The runtime value sitting in state.hours when validate_input_node runs:
a string together with the outcome of float() on it (float parsing of
arbitrary strings is Python runtime behaviour, carried as an input), an
int/float, or something else (the ValueError branch of line 45). -/
inductive HoursVal where
  | str (s : String) (parse : Except Unit PyFloat)
  | num (v : PyFloat)
  | noneVal
deriving DecidableEq, Repr

/-- The text interpolated for state.hours in the invalid-hours message;
numeric rendering is abstracted. -/
def hoursRepr : HoursVal → String
  | .str s _ => s
  | .num _ => "number"
  | .noneVal => "None"

def daysInMonth (year month : Nat) : Nat :=
  if month = 2 then
    if year % 4 = 0 ∧ (year % 100 ≠ 0 ∨ year % 400 = 0) then 29 else 28
  else if month = 4 ∨ month = 6 ∨ month = 9 ∨ month = 11 then 30
  else 31

def isDigitChar (c : Char) : Bool := '0' ≤ c && c ≤ '9'

def digitsVal (l : List Char) : Nat := l.foldl (fun a c => a * 10 + (c.toNat - 48)) 0

/-- Split a character list at the dashes (own recursion so that concrete
dates evaluate inside the kernel). -/
def splitDashAux : List Char → List Char → List (List Char)
  | [], acc => [acc.reverse]
  | c :: rest, acc =>
    if c = '-' then acc.reverse :: splitDashAux rest []
    else splitDashAux rest (c :: acc)

/-- datetime.strptime(s, %Y-%m-%d) succeeds: exactly four year digits, one
or two month digits valued 1-12, one or two day digits valued within the
month, nothing else (CPython _strptime regex plus the datetime constructor
range checks, year at least 1). -/
def parseDateOk (s : String) : Bool :=
  match splitDashAux s.data [] with
  | [ys, ms, ds] =>
    ys.length = 4 && ys.all isDigitChar && ms.all isDigitChar && ds.all isDigitChar
      && (ms.length = 1 || ms.length = 2) && (ds.length = 1 || ds.length = 2)
      && 1 ≤ digitsVal ms && digitsVal ms ≤ 12
      && 1 ≤ digitsVal ds && digitsVal ds ≤ daysInMonth (digitsVal ys) (digitsVal ms)
      && 1 ≤ digitsVal ys
  | _ => false

/-- Python whitespace for str.strip (the six ASCII whitespace characters;
wider unicode stripping is not modelled). -/
def pyWhitespace (c : Char) : Bool :=
  c = ' ' || c = '\t' || c = '\n' || c = '\r' || c = '\x0b' || c = '\x0c'

/-- `not s or not s.strip()`: the string is empty or whitespace-only. -/
def pyBlank (s : String) : Bool := s.data.all pyWhitespace

def invalidDateMsg (date : String) : String :=
  "Invalid date format: " ++ date ++ ". Please use YYYY-MM-DD."
def emptyDescMsg : String := "Description cannot be empty."
def nonPositiveHoursMsg : String := "Hours must be a positive number."
def invalidHoursMsg (h : HoursVal) : String :=
  "Invalid hours value: " ++ hoursRepr h ++ ". Please provide a positive number."

/-- The workflow state (graph/state.py RegisterHoursState). -/
structure RegisterHoursState where
  requestType : String
  date : String
  description : String
  hours : HoursVal
  validationErrors : List String
  registrationSuccessful : Bool
  registrationMessage : String
  errors : List String
  formattedOutput : String
deriving DecidableEq, Repr

/-- graph/nodes.validate_input_node (lines 19-59): collect the date,
description and hours complaints; on failure record them, on success store
the parsed float back into state.hours. -/
def validateInputNode (st : RegisterHoursState) : RegisterHoursState :=
  let dateErrs := if parseDateOk st.date then [] else [invalidDateMsg st.date]
  let descErrs := if pyBlank st.description then [emptyDescMsg] else []
  let hoursOutcome : Except Unit PyFloat :=
    match st.hours with
    | .str _ p => p
    | .num v => .ok v
    | .noneVal => .error ()
  let hoursErrs :=
    match hoursOutcome with
    | .ok v => if pyFloatLeZero v then [nonPositiveHoursMsg] else []
    | .error _ => [invalidHoursMsg st.hours]
  let errs := dateErrs ++ descErrs ++ hoursErrs
  if errs ≠ [] then
    { st with validationErrors := errs, errors := st.errors ++ errs }
  else
    match hoursOutcome with
    | .ok v => { st with hours := .num v, validationErrors := [] }
    | .error _ => { st with validationErrors := [] }

/-- graph/nodes.register_hours_node (lines 62-99): skip when validation
failed, otherwise call register_hours_on_website (its outcome is the
`browser` input) and fold every exception into a failure update. -/
def registerHoursNode (st : RegisterHoursState) (browser : Except PyError Bool) :
    RegisterHoursState :=
  if st.validationErrors ≠ [] then
    { st with registrationSuccessful := false
              registrationMessage := "Input validation failed." }
  else
    match browser with
    | .ok true =>
      { st with registrationSuccessful := true
                registrationMessage := "Hours registered successfully via Playwright." }
    | .ok false =>
      let m := "Hour registration failed via Playwright (returned False)."
      { st with registrationSuccessful := false, registrationMessage := m
                errors := st.errors ++ [m] }
    | .error (.moneyMonk m) =>
      { st with registrationSuccessful := false, registrationMessage := m
                errors := st.errors ++ [m] }
    | .error (.playwrightTimeout m) =>
      let m2 := "Browser automation error during registration: " ++ m
      { st with registrationSuccessful := false, registrationMessage := m2
                errors := st.errors ++ [m2] }
    | .error (.playwright m) =>
      let m2 := "Browser automation error during registration: " ++ m
      { st with registrationSuccessful := false, registrationMessage := m2
                errors := st.errors ++ [m2] }
    | .error e =>
      let m2 := "An unexpected error occurred during hour registration: " ++ pyMsg e
      { st with registrationSuccessful := false, registrationMessage := m2
                errors := st.errors ++ [m2] }

/-- graph/nodes.format_output_node (lines 102-118). -/
def formatOutputNode (st : RegisterHoursState) : RegisterHoursState :=
  let out :=
    if st.registrationSuccessful then
      "[green]Success:[/green] " ++ st.registrationMessage
    else if st.validationErrors ≠ [] then
      "[red]Error:[/red] Input validation failed:\n- "
        ++ String.intercalate "\n- " st.validationErrors
    else if st.errors ≠ [] then
      "[red]Error:[/red] " ++ (if st.registrationMessage.isEmpty then
        String.intercalate "; " st.errors else st.registrationMessage)
    else
      "[yellow]Unknown outcome for hour registration.[/yellow]"
  { st with formattedOutput := out }

/-- graph/workflow.create_register_hours_graph (lines 18-45): validate, then
either straight to format_output (when validation_errors is nonempty) or
through register_hours.  Returns the final state and the nodes that ran. -/
def runRegisterHoursGraph (input : RegisterHoursState)
    (browser : Except PyError Bool) : RegisterHoursState × List String :=
  let s1 := validateInputNode input
  if s1.validationErrors ≠ [] then
    (formatOutputNode s1, ["validate_input", "format_output"])
  else
    (formatOutputNode (registerHoursNode s1 browser),
      ["validate_input", "register_hours", "format_output"])

/-- agent.process_register_hours_request builds this initial state
(agent.py lines 57-67). -/
def initialState (date description : String) (hours : HoursVal) : RegisterHoursState :=
  { requestType := "register_hours", date := date, description := description
    hours := hours, validationErrors := [], registrationSuccessful := false
    registrationMessage := "", errors := [], formattedOutput := "" }

/-- What the result dict of the agent carries
(agent.py lines 31-35 and 38-42). -/
structure AgentResult where
  formattedOutput : String
  errors : List String
  registrationSuccessful : Bool
deriving DecidableEq, Repr

/-- How one workflow invocation went: it either ran the compiled graph to
completion (with the given browser-client outcome feeding
register_hours_node) or raised out of workflow.invoke. -/
inductive InvokeBehavior where
  | runs (browser : Except PyError Bool)
  | raises (e : PyError)

/-- agent.AccountingAgent._invoke_workflow (lines 24-42): extract the three
keys from the final state, or catch any exception and build the failure
dict. -/
def invokeWorkflow (final : Except PyError RegisterHoursState) : AgentResult :=
  match final with
  | .ok st =>
    { formattedOutput := st.formattedOutput, errors := st.errors
      registrationSuccessful := st.registrationSuccessful }
  | .error e =>
    { formattedOutput := "[red]Workflow execution failed: " ++ pyMsg e ++ "[/red]"
      errors := ["Workflow execution failed: " ++ pyMsg e]
      registrationSuccessful := false }

/-- agent.process_register_hours_request (lines 44-69): build the initial
state, invoke the workflow, convert. -/
def processRegisterHoursRequest (date description : String) (hours : HoursVal)
    (beh : InvokeBehavior) : AgentResult :=
  match beh with
  | .raises e => invokeWorkflow (.error e)
  | .runs browser =>
    invokeWorkflow (.ok (runRegisterHoursGraph (initialState date description hours) browser).1)

/-- When every teardown error is of the swallowed kind, the finally block
visits every acquired resource in order and leaves the result alone. -/
theorem runTeardown_swallowable {α : Type} (td : TeardownBehavior) (h : tdSwallowable td)
    (rs : List Resource) (res : Except PyError α) :
    runTeardown td rs res = (res, rs) := by
  obtain ⟨h1, h2, h3⟩ := h
  induction rs with
  | nil => simp [runTeardown]
  | cons r rest ih =>
    cases r with
    | page =>
      simp only [runTeardown, closeOutcome]
      cases hc : td.pageClose with
      | none => simp [ih]
      | some e => simp [teardownSwallows, h1 e hc, ih]
    | context =>
      simp only [runTeardown, closeOutcome]
      cases hc : td.contextClose with
      | none => simp [ih]
      | some e => simp [teardownSwallows, h2 e hc, ih]
    | browser =>
      simp only [runTeardown, closeOutcome]
      cases hc : td.browserClose with
      | none => simp [ih]
      | some e => simp [teardownSwallows, h3 e hc, ih]
    | pw =>
      simp only [runTeardown, closeOutcome]
      cases hc : td.pwStop <;> simp [teardownSwallows, ih]

/-- Teardown can drop or replace a result, but never invents a success. -/
theorem runTeardown_ok {α : Type} (td : TeardownBehavior) (rs : List Resource)
    (res : Except PyError α) (b : α) (h : (runTeardown td rs res).1 = .ok b) :
    res = .ok b := by
  induction rs with
  | nil => simpa [runTeardown] using h
  | cons r rest ih =>
    simp only [runTeardown] at h
    cases hc : closeOutcome td r with
    | none =>
      rw [hc] at h
      exact ih h
    | some e =>
      rw [hc] at h
      by_cases hs : teardownSwallows r e = true
      · simp [hs] at h
        exact ih h
      · simp [hs] at h

set_option maxRecDepth 100000

/-- C9: the TOTP generator is a pure deterministic function of the seed and
the 30-second window of the time: equal windows give equal codes, every
code is 6 digits, and adjacent windows generally differ, witnessed by the
RFC 6238 SHA-1 test seed at t = 59 and t = 89. -/
theorem c9_totp_pure_function :
    (∀ (seed : String) (t1 t2 : Nat), t1 / 30 = t2 / 30 →
      currentCode seed t1 = currentCode seed t2)
    ∧ (∀ (seed : String) (t : Nat), (currentCode seed t).length = 6)
    ∧ currentCode rfcSeed 59 ≠ currentCode rfcSeed 89 := by
  refine ⟨?_, ?_, ?_⟩
  · intro seed t1 t2 h
    unfold currentCode
    rw [h]
  · intro seed t
    unfold currentCode sixDigits
    simp [String.length]
  · decide

/-- C9 witness: the deterministic clauses applied at t = 31 and t = 59,
which share the 30-second window. -/
theorem c9_totp_pure_function_witness :
    currentCode rfcSeed 31 = currentCode rfcSeed 59
    ∧ (currentCode rfcSeed 59).length = 6 :=
  ⟨c9_totp_pure_function.1 rfcSeed 31 59 (by decide),
   c9_totp_pure_function.2.1 rfcSeed 59⟩

def c6Env : EnvState := ⟨none, none, none, none, none, none⟩
def c6File : MMSection :=
  ⟨some ("https://moneymonk.example"), some ("alice"), some ("file-pass"), some ("file-totp")⟩
def c6Keyring : String → Option String := fun k =>
  if k = passwordKeyFor ("alice") then some ("ring-pass")
  else if k = totpKeyFor ("alice") then some ("ring-totp")
  else none

/-- C6 counterexample: with no environment variables, a config file that
carries every field and a secret store that disagrees on the secrets, the
source resolver returns the secret-store password and totp seed, while the
per-field env-over-file-over-store precedence the claim states would return
the file values: the claimed precedence does not hold. -/
theorem c6_counterexample :
    getMoneymonkCredentials c6Env c6File c6Keyring
      = .ok { url := "https://moneymonk.example", username := "alice"
              password := "ring-pass", totpSecret := "ring-totp" }
    ∧ specPrecedenceResolve c6Env c6File c6Keyring
      = .ok { url := "https://moneymonk.example", username := "alice"
              password := "file-pass", totpSecret := "file-totp" }
    ∧ getMoneymonkCredentials c6Env c6File c6Keyring
      ≠ specPrecedenceResolve c6Env c6File c6Keyring := by
  refine ⟨by decide, by decide, by decide⟩

/-- C6 amended: when all four environment variables are truthy they are the
credentials; otherwise url and username resolve environment over the loaded
config while password and totp seed come exclusively from the secret store
(config-file secrets are ignored at this stage), each error naming what is
missing, the url/username error naming the pair rather than the single
missing field. -/
theorem c6_amended (env : EnvState) (file : MMSection) (keyring : String → Option String) :
    ((truthy env.loginUrl && truthy env.email && truthy env.password
        && truthy env.totpSecret) = true →
      getMoneymonkCredentials env file keyring
        = .ok { url := env.loginUrl.getD "", username := env.email.getD ""
                password := env.password.getD "", totpSecret := env.totpSecret.getD "" })
    ∧ ((truthy env.loginUrl && truthy env.email && truthy env.password
        && truthy env.totpSecret) = false →
      (truthy (pyOr env.loginUrl (loadConfigMM file env keyring).url)
        && truthy (pyOr env.email (loadConfigMM file env keyring).username)) = false →
      getMoneymonkCredentials env file keyring = .error (.configuration urlUserMissingMsg))
    ∧ ((truthy env.loginUrl && truthy env.email && truthy env.password
        && truthy env.totpSecret) = false →
      truthy (pyOr env.loginUrl (loadConfigMM file env keyring).url) = true →
      truthy (pyOr env.email (loadConfigMM file env keyring).username) = true →
      truthy (keyring (passwordKeyFor ((pyOr env.email
        (loadConfigMM file env keyring).username).getD ""))) = false →
      getMoneymonkCredentials env file keyring = .error (.configuration passwordMissingMsg))
    ∧ ((truthy env.loginUrl && truthy env.email && truthy env.password
        && truthy env.totpSecret) = false →
      truthy (pyOr env.loginUrl (loadConfigMM file env keyring).url) = true →
      truthy (pyOr env.email (loadConfigMM file env keyring).username) = true →
      truthy (keyring (passwordKeyFor ((pyOr env.email
        (loadConfigMM file env keyring).username).getD ""))) = true →
      truthy (keyring (totpKeyFor ((pyOr env.email
        (loadConfigMM file env keyring).username).getD ""))) = false →
      getMoneymonkCredentials env file keyring = .error (.configuration totpMissingMsg))
    ∧ ((truthy env.loginUrl && truthy env.email && truthy env.password
        && truthy env.totpSecret) = false →
      truthy (pyOr env.loginUrl (loadConfigMM file env keyring).url) = true →
      truthy (pyOr env.email (loadConfigMM file env keyring).username) = true →
      truthy (keyring (passwordKeyFor ((pyOr env.email
        (loadConfigMM file env keyring).username).getD ""))) = true →
      truthy (keyring (totpKeyFor ((pyOr env.email
        (loadConfigMM file env keyring).username).getD ""))) = true →
      getMoneymonkCredentials env file keyring
        = .ok { url := (pyOr env.loginUrl (loadConfigMM file env keyring).url).getD ""
                username := (pyOr env.email (loadConfigMM file env keyring).username).getD ""
                password := (keyring (passwordKeyFor ((pyOr env.email
                  (loadConfigMM file env keyring).username).getD ""))).getD ""
                totpSecret := (keyring (totpKeyFor ((pyOr env.email
                  (loadConfigMM file env keyring).username).getD ""))).getD "" }) := by
  refine ⟨?_, ?_, ?_, ?_, ?_⟩
  · intro h
    simp [getMoneymonkCredentials, h]
  · intro h h2
    rw [Bool.and_eq_false_iff] at h2
    simp [getMoneymonkCredentials, h]
    rcases h2 with h2 | h2 <;> simp [h2]
  · intro h h2 h3 h4
    simp [getMoneymonkCredentials, h, h2, h3, h4]
  · intro h h2 h3 h4 h5
    simp [getMoneymonkCredentials, h, h2, h3, h4, h5]
  · intro h h2 h3 h4 h5
    simp [getMoneymonkCredentials, h, h2, h3, h4, h5]

/-- C6 witness: the success clause of the amended statement at the
counterexample state, showing the secrets come from the keyring. -/
theorem c6_amended_witness :
    getMoneymonkCredentials c6Env c6File c6Keyring
      = .ok { url := "https://moneymonk.example", username := "alice"
              password := "ring-pass", totpSecret := "ring-totp" } := by
  rw [(c6_amended c6Env c6File c6Keyring).2.2.2.2
    (by decide) (by decide) (by decide) (by decide) (by decide)]
  decide

def c2Td : TeardownBehavior := ⟨some (.other ("page close failed")), none, none, none⟩

/-- C2 counterexample: a body failure followed by a page.close error that is
not a PlaywrightError: the teardown error replaces the body error and the
context, browser and playwright process are never released, refuting both
the full reverse-order teardown and the every-teardown-error-is-swallowed
clause of the claim. -/
theorem c2_counterexample :
    playwrightContextRun .ok c2Td (.error (.other ("body failed")) : Except PyError Bool)
      = (.error (.other ("page close failed")), [.page])
    ∧ (playwrightContextRun .ok c2Td
        (.error (.other ("body failed")) : Except PyError Bool)).1
      ≠ .error (.other ("body failed")) := by
  refine ⟨by decide, by decide⟩

/-- C2 amended: as long as every close error is of the kind its handler
swallows (PlaywrightError for page, context and browser; anything for the
process stop), every acquired resource is released in the order page,
context, browser, process, and the result is exactly what a clean teardown
yields, so teardown never masks the body outcome. -/
theorem c2_amended (setup : SetupOutcome) (td : TeardownBehavior)
    (body : Except PyError Bool) (h : tdSwallowable td) :
    (playwrightContextRun setup td body).2 = acquiredOf setup
    ∧ (playwrightContextRun setup td body).1
      = (playwrightContextRun setup tdClean body).1 := by
  have hclean : tdSwallowable tdClean := by
    refine ⟨?_, ?_, ?_⟩ <;> intro e he <;> simp [tdClean] at he
  cases setup <;>
    simp [playwrightContextRun, runTeardown_swallowable td h,
      runTeardown_swallowable tdClean hclean, acquiredOf]

/-- C2 witness: the amended statement applied to a full session whose page
close raises a PlaywrightError and whose process stop raises a plain
exception: all four resources are still released in order and the body
error survives. -/
theorem c2_amended_witness :
    (playwrightContextRun .ok
      ⟨some (.playwright ("page close boom")), none, none, some (.other ("stop boom"))⟩
      (.error (.other ("body failed")) : Except PyError Bool)).2
        = [Resource.page, .context, .browser, .pw]
    ∧ (playwrightContextRun .ok
      ⟨some (.playwright ("page close boom")), none, none, some (.other ("stop boom"))⟩
      (.error (.other ("body failed")) : Except PyError Bool)).1
        = (playwrightContextRun .ok tdClean
            (.error (.other ("body failed")) : Except PyError Bool)).1 := by
  have h := c2_amended .ok
    ⟨some (.playwright ("page close boom")), none, none, some (.other ("stop boom"))⟩
    (.error (.other ("body failed")))
    ⟨fun e he => by injection he with he; subst he; decide, fun e he => by simp at he,
     fun e he => by simp at he⟩
  exact ⟨h.1, h.2⟩

theorem formatOutputNode_flag (st : RegisterHoursState) :
    (formatOutputNode st).registrationSuccessful = st.registrationSuccessful := rfl

theorem formatOutputNode_validationErrors (st : RegisterHoursState) :
    (formatOutputNode st).validationErrors = st.validationErrors := rfl

theorem validateInputNode_flag (st : RegisterHoursState) :
    (validateInputNode st).registrationSuccessful = st.registrationSuccessful := by
  unfold validateInputNode
  dsimp only
  repeat' split
  all_goals rfl

theorem registerHoursNode_error_flag (st : RegisterHoursState) (e : PyError) :
    (registerHoursNode st (.error e)).registrationSuccessful = false := by
  unfold registerHoursNode
  split
  · rfl
  · cases e <;> rfl

/-- C5: the agent turns every workflow outcome into exactly one result dict
with the three keys; a raising workflow becomes a failure result with
registration_successful false and a nonempty error list, and a browser
failure inside the workflow also ends with registration_successful false -
no exception propagates to the caller. -/
theorem c5_exactly_one_result (date description : String) (hours : HoursVal)
    (beh : InvokeBehavior) :
    (∃! r : AgentResult, processRegisterHoursRequest date description hours beh = r)
    ∧ (∀ e, beh = .raises e →
        (processRegisterHoursRequest date description hours beh).registrationSuccessful = false
        ∧ (processRegisterHoursRequest date description hours beh).errors ≠ []
        ∧ (processRegisterHoursRequest date description hours beh).formattedOutput
          = "[red]Workflow execution failed: " ++ pyMsg e ++ "[/red]")
    ∧ (∀ e, beh = .runs (.error e) →
        (processRegisterHoursRequest date description hours beh).registrationSuccessful
          = false) := by
  refine ⟨⟨processRegisterHoursRequest date description hours beh, rfl, fun y h => h.symm⟩,
    ?_, ?_⟩
  · rintro e rfl
    simp [processRegisterHoursRequest, invokeWorkflow]
  · rintro e rfl
    simp only [processRegisterHoursRequest, invokeWorkflow, runRegisterHoursGraph]
    split
    · simp [formatOutputNode_flag, validateInputNode_flag, initialState]
    · simp [formatOutputNode_flag, registerHoursNode_error_flag]

/-- C5 witness: the raising clause at a concrete request and exception. -/
theorem c5_exactly_one_result_witness :
    (processRegisterHoursRequest ("2024-03-01") ("Fixed bug X")
      (.str ("2.5") (.ok (.finite (5/2)))) (.raises (.other ("graph blew up")))).registrationSuccessful
      = false
    ∧ (processRegisterHoursRequest ("2024-03-01") ("Fixed bug X")
      (.str ("2.5") (.ok (.finite (5/2)))) (.raises (.other ("graph blew up")))).formattedOutput
      = "[red]Workflow execution failed: graph blew up[/red]" := by
  have h := (c5_exactly_one_result ("2024-03-01") ("Fixed bug X")
    (.str ("2.5") (.ok (.finite (5/2)))) (.raises (.other ("graph blew up")))).2.1
    (.other ("graph blew up")) rfl
  exact ⟨h.1, h.2.2⟩

/-- The hours inputs the validator actually rejects: a value whose float
comparison with zero says it is non-positive, a failed parse, or a
non-number.  Note pyFloatLeZero nan = false, so nan is not rejected. -/
def hoursRejected : HoursVal → Bool
  | .str _ (.ok v) => pyFloatLeZero v
  | .str _ (.error _) => true
  | .num v => pyFloatLeZero v
  | .noneVal => true

def nanHours : HoursVal := .str ("nan") (.ok .nan)

/-- C7 counterexample: the hours string nan parses as float nan, which is
not a positive number, yet nan <= 0 is False so validation passes, the
graph routes to the browser step, and with an accepting browser the run
even reports success - refuting never invokes the browser for a
non-positive hours value. -/
theorem c7_counterexample :
    (runRegisterHoursGraph (initialState ("2024-03-01") ("Fixed bug X") nanHours)
      (.ok true)).2 = ["validate_input", "register_hours", "format_output"]
    ∧ (validateInputNode (initialState ("2024-03-01") ("Fixed bug X") nanHours)).validationErrors
      = []
    ∧ (runRegisterHoursGraph (initialState ("2024-03-01") ("Fixed bug X") nanHours)
      (.ok true)).1.registrationSuccessful = true := by
  refine ⟨by decide, by decide, by decide⟩

/-- C7 amended: for a date that does not parse as YYYY-MM-DD, a blank
description, or an hours value that parses to a non-positive float or
fails to parse (NaN excluded: it passes the <= 0 check), the workflow
stops after validation: register_hours never runs, the result is a failure
carrying the specific validation messages. -/
theorem c7_amended (date description : String) (hours : HoursVal)
    (browser : Except PyError Bool)
    (h : parseDateOk date = false ∨ pyBlank description = true
      ∨ hoursRejected hours = true) :
    (runRegisterHoursGraph (initialState date description hours) browser).2
      = ["validate_input", "format_output"]
    ∧ (runRegisterHoursGraph (initialState date description hours) browser).1
      = formatOutputNode (validateInputNode (initialState date description hours))
    ∧ (runRegisterHoursGraph (initialState date description hours) browser).1.registrationSuccessful
      = false
    ∧ (runRegisterHoursGraph (initialState date description hours) browser).1.validationErrors
      ≠ []
    ∧ (runRegisterHoursGraph (initialState date description hours) browser).1.formattedOutput
      = "[red]Error:[/red] Input validation failed:\n- " ++ String.intercalate "\n- "
        (runRegisterHoursGraph (initialState date description hours) browser).1.validationErrors := by
  have hne : (validateInputNode (initialState date description hours)).validationErrors ≠ [] := by
    unfold validateInputNode initialState
    dsimp only
    rcases h with h | h | h
    · simp [h]
    · cases hp : parseDateOk date <;> simp [h, hp]
    · cases hours with
      | str s p =>
        cases p with
        | ok v =>
          simp only [hoursRejected] at h
          cases hp : parseDateOk date <;> cases hd : pyBlank description <;> simp [h, hp, hd]
        | error u =>
          cases hp : parseDateOk date <;> cases hd : pyBlank description <;> simp [hp, hd]
      | num v =>
        simp only [hoursRejected] at h
        cases hp : parseDateOk date <;> cases hd : pyBlank description <;> simp [h, hp, hd]
      | noneVal =>
        cases hp : parseDateOk date <;> cases hd : pyBlank description <;> simp [hp, hd]
  have hroute : (runRegisterHoursGraph (initialState date description hours) browser)
      = (formatOutputNode (validateInputNode (initialState date description hours)),
        ["validate_input", "format_output"]) := by
    unfold runRegisterHoursGraph
    simp [hne]
  refine ⟨by rw [hroute], by rw [hroute], ?_, ?_, ?_⟩
  · rw [hroute]
    simp [formatOutputNode_flag, validateInputNode_flag, initialState]
  · rw [hroute]
    simpa [formatOutputNode_validationErrors] using hne
  · rw [hroute]
    simp only [formatOutputNode_validationErrors]
    unfold formatOutputNode
    dsimp only
    rw [validateInputNode_flag]
    simp only [initialState]
    simp [hne]
    intro hc
    exact absurd hc hne

/-- C7 witness: a blank description is stopped at validation and never
reaches the browser step. -/
theorem c7_amended_witness :
    (runRegisterHoursGraph (initialState ("2024-03-01") ("   ")
      (.str ("2.5") (.ok (.finite (5/2))))) (.ok true)).2
      = ["validate_input", "format_output"]
    ∧ (runRegisterHoursGraph (initialState ("2024-03-01") ("   ")
      (.str ("2.5") (.ok (.finite (5/2))))) (.ok true)).1.registrationSuccessful = false := by
  have h := c7_amended ("2024-03-01") ("   ") (.str ("2.5") (.ok (.finite (5/2)))) (.ok true)
    (Or.inr (Or.inl (by decide)))
  exact ⟨h.1, h.2.2.1⟩

/-- Page interactions that touch the project selector widget: opening the
dropdown trigger, clicking an option by position, querying the option list,
or clicking the text-matched option. -/
def isProjectEv : Ev → Bool
  | .click s => s = projectTriggerSel || s = specificProjectOptionSel
  | .clickNth _ _ => true
  | .querySelectorAll s => s = projectOptionSel
  | _ => false

/-- No interaction in the list touches the project selector. -/
def noProj (evs : List Ev) : Prop := ∀ e ∈ evs, isProjectEv e = false

theorem noProj_nil : noProj [] := by
  intro e he
  cases he

theorem noProj_append {l1 l2 : List Ev} (h1 : noProj l1) (h2 : noProj l2) :
    noProj (l1 ++ l2) := by
  intro x hx
  rcases List.mem_append.mp hx with hx | hx
  · exact h1 x hx
  · exact h2 x hx

theorem noProj_ite {c : Prop} [Decidable c] {l1 l2 : List Ev}
    (h1 : noProj l1) (h2 : noProj l2) : noProj (if c then l1 else l2) := by
  split <;> assumption

theorem isProjectEv_goto (u : String) : isProjectEv (.goto u) = false := rfl
theorem isProjectEv_waitTimeout (n : Nat) : isProjectEv (.waitTimeout n) = false := rfl
theorem isProjectEv_fill (s v : String) : isProjectEv (.fill s v) = false := rfl
theorem isProjectEv_isVisible (s : String) : isProjectEv (.isVisible s) = false := rfl
theorem isProjectEv_screenshot (s : String) : isProjectEv (.screenshot s) = false := rfl
theorem isProjectEv_waitSelector (s : String) : isProjectEv (.waitSelector s) = false := rfl
theorem isProjectEv_content : isProjectEv .content = false := rfl
theorem isProjectEv_textContent (s : String) : isProjectEv (.textContent s) = false := rfl
theorem isProjectEv_click_login : isProjectEv (.click loginBtnSel) = false := by decide
theorem isProjectEv_click_addEntry : isProjectEv (.click addEntrySel) = false := by decide
theorem isProjectEv_click_submit : isProjectEv (.click submitSel) = false := by decide

theorem regErrorScan_noProj (pr : RegPageRun) (l : List String) :
    noProj (regErrorScan pr l).2 := by
  induction l with
  | nil => exact noProj_nil
  | cons s rest ih =>
    simp only [regErrorScan]
    split
    · cases ht : pr.errorText s with
      | some txt =>
        simp [noProj, isProjectEv_isVisible, isProjectEv_textContent]
      | none =>
        intro e he
        simp only [List.mem_cons] at he
        rcases he with rfl | rfl | he
        · exact isProjectEv_isVisible s
        · exact isProjectEv_textContent s
        · exact ih e he
    · intro e he
      simp only [List.mem_cons] at he
      rcases he with rfl | he
      · exact isProjectEv_isVisible s
      · exact ih e he

theorem regCheck2_noProj (pr : RegPageRun) (pre : List Ev) (hpre : noProj pre) :
    noProj (regCheck2 pr pre).2 := by
  unfold regCheck2
  split
  · exact noProj_append (noProj_append hpre
      (by simp [noProj, isProjectEv_isVisible])) (regErrorScan_noProj pr _)
  · split
    · exact noProj_append (noProj_append hpre
        (by simp [noProj, isProjectEv_isVisible])) (regErrorScan_noProj pr _)
    · exact noProj_append hpre (by simp [noProj, isProjectEv_isVisible])

theorem regPostSubmit_noProj (pr : RegPageRun) (d : String) :
    noProj (regPostSubmit pr d).2 := by
  unfold regPostSubmit
  split
  · split
    · simp [noProj, isProjectEv_isVisible]
    · exact regCheck2_noProj pr _ (by simp [noProj, isProjectEv_isVisible])
  · exact regCheck2_noProj pr _ (by simp [noProj, isProjectEv_isVisible])

theorem regFormTimeout_noProj (pr : RegPageRun) (m : String) (pre : List Ev)
    (hpre : noProj pre) : noProj (regFormTimeout pr m pre).2 := by
  unfold regFormTimeout
  split <;> exact noProj_append hpre (by simp [noProj, isProjectEv_screenshot])

theorem regFormPhase_noProj (pr : RegPageRun) (d hs : String) (pre : List Ev)
    (hpre : noProj pre) : noProj (regFormPhase pr d hs pre).2 := by
  rcases hps : regPostSubmit pr d with ⟨r4, evs4⟩
  have h4 : noProj evs4 := by
    have h := regPostSubmit_noProj pr d
    rw [hps] at h
    exact h
  have hstep : noProj (pre ++ [Ev.isVisible addEntrySel]
      ++ (if pr.addEntryVisible = true then [Ev.click addEntrySel, Ev.waitTimeout 1000] else [])
      ++ [Ev.content]) := by
    repeat' first | apply noProj_append | apply noProj_ite
    all_goals first
      | exact hpre
      | (simp [noProj, isProjectEv] <;> decide)
  unfold regFormPhase
  dsimp only
  rcases hd : pr.descWait with _ | m1
  all_goals simp only [hd]
  case some =>
    apply regFormTimeout_noProj
    exact noProj_append hstep (by simp [noProj, isProjectEv])
  rcases hh : pr.hoursWait with _ | m2
  all_goals simp only [hh]
  case some =>
    apply regFormTimeout_noProj
    exact noProj_append hstep (by simp [noProj, isProjectEv])
  rcases hsw : pr.submitWait with _ | m3
  all_goals simp only [hsw]
  case some =>
    apply regFormTimeout_noProj
    exact noProj_append hstep (by simp [noProj, isProjectEv])
  rcases hb : pr.shotBeforeSubmit with _ | e1
  all_goals simp only [hb]
  case some =>
    refine noProj_append (noProj_append hstep ?_) ?_ <;>
      (simp [noProj, isProjectEv]; try decide)
  rcases ha : pr.shotAfterSubmit with _ | e2
  all_goals simp only [ha]
  case some =>
    refine noProj_append (noProj_append (noProj_append hstep ?_) ?_) ?_ <;>
      (simp [noProj, isProjectEv] <;> decide)
  rcases hf : pr.shotAfterSubmitFinal with _ | e3
  all_goals simp only [hf]
  case some =>
    refine noProj_append (noProj_append (noProj_append (noProj_append hstep ?_) ?_) ?_) ?_ <;>
      (simp [noProj, isProjectEv] <;> decide)
  simp only [hps]
  refine noProj_append (noProj_append (noProj_append (noProj_append (noProj_append
    hstep ?_) ?_) ?_) ?_) h4 <;>
    (simp [noProj, isProjectEv] <;> decide)

theorem regNavigationPhase_noProj (pr : RegPageRun) (env : EnvState)
    (ed d hs : String) (pre : List Ev) (hpre : noProj pre) :
    noProj (regNavigationPhase pr env ed d hs pre).2 := by
  unfold regNavigationPhase
  split
  · exact hpre
  · have hnav : noProj (pre ++ [Ev.goto (env.baseTimeEntryUrl.getD "" ++ "?date=" ++ ed),
        Ev.waitTimeout 2000]) :=
      noProj_append hpre (by simp [noProj, isProjectEv_goto, isProjectEv_waitTimeout])
    split
    · exact noProj_append hnav (by simp [noProj, isProjectEv_screenshot])
    · exact regFormPhase_noProj pr _ _ _
        (noProj_append hnav (by simp [noProj, isProjectEv_screenshot]))

/-- The login-handshake part of the trace of the register body, as laid down
by lines 289-331: navigation, credential fill, submit, conditional TOTP
step, and the three login-state probes. -/
def regLoginTrace (pr : RegPageRun) (c : Creds) (now : Nat) : List Ev :=
  ([Ev.goto c.url, .waitTimeout 2000, .fill emailSel c.username,
    .fill passwordSel c.password, .click loginBtnSel, .waitTimeout 2000,
    .isVisible codeSel]
  ++ (if pr.codeVisibleAfterLogin then
    [Ev.fill codeSel (currentCode c.totpSecret now), .click loginBtnSel,
      .waitTimeout 2000] else []))
  ++ [Ev.isVisible emailSel, .isVisible passwordSel, .isVisible codeSel]

theorem regLoginTrace_noProj (pr : RegPageRun) (c : Creds) (now : Nat) :
    noProj (regLoginTrace pr c now) := by
  unfold regLoginTrace
  refine noProj_append (noProj_append ?_ (noProj_ite ?_ noProj_nil)) ?_
  · simp [noProj, isProjectEv_goto, isProjectEv_waitTimeout, isProjectEv_fill,
      isProjectEv_click_login, isProjectEv_isVisible]
  · simp [noProj, isProjectEv_fill, isProjectEv_click_login, isProjectEv_waitTimeout]
  · simp [noProj, isProjectEv_isVisible]

/-- When credentials resolve and the post-login probes see none of the
login fields, the body runs the navigation phase on the login trace. -/
theorem registerHoursBody_eval (pr : RegPageRun) (env : EnvState) (file : MMSection)
    (keyring : String → Option String) (date d hs : String) (now : Nat) (today : String)
    (c : Creds) (hres : resolveInBody env file keyring = .ok c)
    (he : pr.emailVisibleAtCheck = false) (hp : pr.passwordVisibleAtCheck = false)
    (hcode : pr.codeVisibleAtCheck = false) :
    registerHoursBody pr env file keyring date d hs now today
      = regNavigationPhase pr env (if date.isEmpty then today else date) d hs
          (regLoginTrace pr c now) := by
  unfold registerHoursBody regLoginTrace
  rw [hres]
  simp [he, hp, hcode]

/-- When a post-login probe still sees a login or code field, the body
raises the login-failed MoneyMonkError. -/
theorem registerHoursBody_authFail (pr : RegPageRun) (env : EnvState) (file : MMSection)
    (keyring : String → Option String) (date d hs : String) (now : Nat) (today : String)
    (c : Creds) (hres : resolveInBody env file keyring = .ok c)
    (h : pr.emailVisibleAtCheck = true ∨ pr.passwordVisibleAtCheck = true
      ∨ pr.codeVisibleAtCheck = true) :
    (registerHoursBody pr env file keyring date d hs now today).1
      = .error (.moneyMonk loginFailedRegMsg) := by
  unfold registerHoursBody
  rw [hres]
  rcases h with h | h | h
  · simp [h]
  · cases he : pr.emailVisibleAtCheck <;> simp [he, h]
  · cases he : pr.emailVisibleAtCheck <;>
      cases hp : pr.passwordVisibleAtCheck <;> simp [he, hp, h]

/-- With a full setup and swallowable teardown errors, the context hands the
body result (converted by its except clause) through and releases all four
resources in order. -/
theorem playwrightContextRun_ok (td : TeardownBehavior) (h : tdSwallowable td)
    (body : Except PyError Bool) :
    playwrightContextRun .ok td body
      = (contextExcept body, [.page, .context, .browser, .pw]) := by
  simp [playwrightContextRun, runTeardown_swallowable td h, acquiredOf]

theorem registerHoursBody_noProj (pr : RegPageRun) (env : EnvState)
    (file : MMSection) (keyring : String → Option String)
    (date d hs : String) (now : Nat) (today : String) :
    noProj (registerHoursBody pr env file keyring date d hs now today).2 := by
  unfold registerHoursBody
  cases hres : resolveInBody env file keyring with
  | error e => exact noProj_nil
  | ok c =>
    have hbase : noProj ([Ev.goto c.url, .waitTimeout 2000, .fill emailSel c.username,
        .fill passwordSel c.password, .click loginBtnSel, .waitTimeout 2000,
        .isVisible codeSel]
      ++ (if pr.codeVisibleAfterLogin = true then
        [Ev.fill codeSel (currentCode c.totpSecret now), .click loginBtnSel,
          .waitTimeout 2000] else [])) := by
      refine noProj_append ?_ (noProj_ite ?_ noProj_nil)
      · simp [noProj, isProjectEv_goto, isProjectEv_waitTimeout, isProjectEv_fill,
          isProjectEv_click_login, isProjectEv_isVisible]
      · simp [noProj, isProjectEv_fill, isProjectEv_click_login, isProjectEv_waitTimeout]
    dsimp only
    split
    · exact noProj_append hbase (by simp [noProj, isProjectEv_isVisible])
    · split
      · exact noProj_append hbase (by simp [noProj, isProjectEv_isVisible])
      · split
        · exact noProj_append hbase (by simp [noProj, isProjectEv_isVisible])
        · exact regNavigationPhase_noProj pr env _ d hs _
            (noProj_append hbase (by simp [noProj, isProjectEv_isVisible]))

theorem registerHoursOnWebsite_noProj (setup : SetupOutcome) (td : TeardownBehavior)
    (pr : RegPageRun) (env : EnvState) (file : MMSection)
    (keyring : String → Option String) (date d hs : String) (now : Nat) (today : String) :
    noProj (registerHoursOnWebsite setup td pr env file keyring date d hs now today).2.1 := by
  unfold registerHoursOnWebsite
  split
  · exact registerHoursBody_noProj pr env file keyring date d hs now today
  · exact noProj_nil

/-- A page run on which register_hours_on_website succeeds: login fields
gone after submit, form fields appear, form gone after submission, no
diagnostic trouble. -/
def benignRegPage : RegPageRun :=
  { codeVisibleAfterLogin := false, emailVisibleAtCheck := false
    passwordVisibleAtCheck := false, codeVisibleAtCheck := false
    shotRegistrationPage := none, addEntryVisible := true
    descWait := none, hoursWait := none, submitWait := none
    shotFormTimeout := none, shotBeforeSubmit := none, shotAfterSubmit := none
    shotAfterSubmitFinal := none, descVisibleCheck1 := false
    hoursVisibleCheck1 := false, entryVisible := true
    descVisibleCheck2 := false, hoursVisibleCheck2 := false
    errorSelVisible := fun _ => false, errorText := fun _ => none }

def envFull : EnvState :=
  { email := some ("user@example.com"), password := some ("hunter2")
    totpSecret := some rfcSeed, loginUrl := some ("https://login.example")
    baseTimeEntryUrl := some ("https://entries.example")
    djinMoneymonkUsername := none }

def emptyFile : MMSection := ⟨none, none, none, none⟩

def emptyKeyring : String → Option String := fun _ => none

/-- C4 counterexample: a complete, successful register_hours_on_website run
whose page trace contains no project-selector interaction at all - the
engine fills only description and hours, refuting the claim that it opens
the project selector and picks the second option. -/
theorem c4_counterexample :
    (registerHoursOnWebsite .ok tdClean benignRegPage envFull emptyFile emptyKeyring
      ("2024-03-01") ("Fixed bug X") ("2.5") 59 ("2024-03-01")).1 = .ok true
    ∧ ((registerHoursOnWebsite .ok tdClean benignRegPage envFull emptyFile emptyKeyring
      ("2024-03-01") ("Fixed bug X") ("2.5") 59 ("2024-03-01")).2.1).all
        (fun e => !isProjectEv e) = true := by
  refine ⟨by decide, by decide⟩

theorem cmdFillHandler_fst (e : PyError) (pre : List Ev) :
    (cmdFillHandler e pre).1 = false := by
  cases e <;> rfl

theorem cmdFillHandler_mem (e : PyError) (pre : List Ev) (x : Ev) (hx : x ∈ pre) :
    x ∈ (cmdFillHandler e pre).2 := by
  cases e <;> simp [cmdFillHandler, List.mem_append, hx]

theorem cmdSubmitStep_mem (pr : CmdPageRun) (pre : List Ev) (x : Ev) (hx : x ∈ pre) :
    x ∈ (cmdSubmitStep pr pre).2 := by
  unfold cmdSubmitStep
  dsimp only
  cases hs : pr.submitClick with
  | some e => exact cmdFillHandler_mem e _ x (by simp [List.mem_append, hx])
  | none => simp [List.mem_append, hx]

theorem cmdVerifyFailBranch_mem (pr : CmdPageRun) (pre : List Ev) (x : Ev)
    (hx : x ∈ pre) : x ∈ (cmdVerifyFailBranch pr pre).2 := by
  unfold cmdVerifyFailBranch
  dsimp only
  cases h1 : pr.verifyTextReadOnFail with
  | some e => exact cmdFillHandler_mem e _ x (by simp [List.mem_append, hx])
  | none =>
    cases h2 : pr.verifyShot with
    | some e => exact cmdFillHandler_mem e _ x (by simp [List.mem_append, hx])
    | none => exact cmdSubmitStep_mem pr _ x (by simp [List.mem_append, hx])

theorem cmdVerifyAndSubmit_mem (pr : CmdPageRun) (pre : List Ev) (x : Ev)
    (hx : x ∈ pre) : x ∈ (cmdVerifyAndSubmit pr pre).2 := by
  unfold cmdVerifyAndSubmit
  dsimp only
  cases h1 : pr.verifyWait with
  | some e =>
    cases e <;>
      first
        | exact cmdVerifyFailBranch_mem pr _ x (by simp [List.mem_append, hx])
        | exact cmdFillHandler_mem _ _ x (by simp [List.mem_append, hx])
  | none =>
    cases h2 : pr.verifyTextRead with
    | some e =>
      cases e <;>
        first
          | exact cmdVerifyFailBranch_mem pr _ x (by simp [List.mem_append, hx])
          | exact cmdFillHandler_mem _ _ x (by simp [List.mem_append, hx])
    | none => exact cmdSubmitStep_mem pr _ x (by simp [List.mem_append, hx])

/-- When the verification wait and text read return and the submit click
returns, lines 260-297 end in return True. -/
theorem cmdVerifyAndSubmit_clean (pr : CmdPageRun) (pre : List Ev)
    (h1 : pr.verifyWait = none) (h2 : pr.verifyTextRead = none)
    (h3 : pr.submitClick = none) :
    (cmdVerifyAndSubmit pr pre).1 = true := by
  unfold cmdVerifyAndSubmit cmdSubmitStep
  simp only [h1, h2, h3]

/-- A raising submit click is converted to return False by the line 273/280
handlers. -/
theorem cmdVerifyAndSubmit_submitFail (pr : CmdPageRun) (pre : List Ev) (e : PyError)
    (h1 : pr.verifyWait = none) (h2 : pr.verifyTextRead = none)
    (h3 : pr.submitClick = some e) :
    (cmdVerifyAndSubmit pr pre).1 = false := by
  unfold cmdVerifyAndSubmit cmdSubmitStep
  simp only [h1, h2, h3]
  exact cmdFillHandler_fst e _

/-- C4 amended: no run of register_hours_on_website ever touches a project
selector; the fixed-index-then-text-fallback dropdown logic lives in the
login_command pre-fill flow of commands.py, where at least two rendered
options mean the second is clicked by position - the command then returning
True exactly on runs whose verification reads and submit click return, a
raising submit click being reported as False - while fewer than two options
fall back to the text-contains click: on a match the flow continues the
same way, and a no-match timeout surfaces as a False result with no
positional option ever clicked. -/
theorem c4_amended :
    (∀ (setup : SetupOutcome) (td : TeardownBehavior) (pr : RegPageRun)
      (env : EnvState) (file : MMSection) (keyring : String → Option String)
      (date d hs : String) (now : Nat) (today : String),
      noProj (registerHoursOnWebsite setup td pr env file keyring date d hs now today).2.1)
    ∧ (∀ (pr : CmdPageRun) (hs d : String), pr.timeInputVisible = true →
        pr.optionsWait = none → 2 ≤ pr.optionCount →
        (Ev.clickNth projectOptionSel 1) ∈ (loginCommandFormFill pr hs d).2
        ∧ (pr.verifyWait = none → pr.verifyTextRead = none → pr.submitClick = none →
            (loginCommandFormFill pr hs d).1 = true)
        ∧ (∀ e, pr.verifyWait = none → pr.verifyTextRead = none →
            pr.submitClick = some e → (loginCommandFormFill pr hs d).1 = false))
    ∧ (∀ (pr : CmdPageRun) (hs d m : String), pr.timeInputVisible = true →
        pr.optionsWait = none → pr.optionCount < 2 → pr.textMatchClick = some m →
        (loginCommandFormFill pr hs d).1 = false
        ∧ (Ev.clickNth projectOptionSel 1) ∉ (loginCommandFormFill pr hs d).2)
    ∧ (∀ (pr : CmdPageRun) (hs d : String), pr.timeInputVisible = true →
        pr.optionsWait = none → pr.optionCount < 2 → pr.textMatchClick = none →
        (Ev.click specificProjectOptionSel) ∈ (loginCommandFormFill pr hs d).2
        ∧ (pr.verifyWait = none → pr.verifyTextRead = none → pr.submitClick = none →
            (loginCommandFormFill pr hs d).1 = true)
        ∧ (∀ e, pr.verifyWait = none → pr.verifyTextRead = none →
            pr.submitClick = some e → (loginCommandFormFill pr hs d).1 = false)) := by
  refine ⟨registerHoursOnWebsite_noProj, ?_, ?_, ?_⟩
  · intro pr hs d htime hwait hcount
    simp only [loginCommandFormFill, htime, hwait]
    simp only [Bool.not_true, Bool.false_eq_true, if_false]
    rw [if_pos hcount]
    refine ⟨?_, ?_, ?_⟩
    · exact cmdVerifyAndSubmit_mem pr _ _ (by simp [List.mem_append])
    · intro h1 h2 h3
      exact cmdVerifyAndSubmit_clean pr _ h1 h2 h3
    · intro e h1 h2 h3
      exact cmdVerifyAndSubmit_submitFail pr _ e h1 h2 h3
  · intro pr hs d m htime hwait hcount hmatch
    have hnot : ¬ pr.optionCount ≥ 2 := by omega
    simp only [loginCommandFormFill, htime, hwait, hmatch]
    simp only [Bool.not_true, Bool.false_eq_true, if_false]
    rw [if_neg hnot]
    refine ⟨rfl, ?_⟩
    by_cases hae : pr.addEntryVisible = true <;>
      simp [hae, List.mem_append]
  · intro pr hs d htime hwait hcount hmatch
    have hnot : ¬ pr.optionCount ≥ 2 := by omega
    simp only [loginCommandFormFill, htime, hwait, hmatch]
    simp only [Bool.not_true, Bool.false_eq_true, if_false]
    rw [if_neg hnot]
    refine ⟨?_, ?_, ?_⟩
    · exact cmdVerifyAndSubmit_mem pr _ _ (by simp [List.mem_append])
    · intro h1 h2 h3
      exact cmdVerifyAndSubmit_clean pr _ h1 h2 h3
    · intro e h1 h2 h3
      exact cmdVerifyAndSubmit_submitFail pr _ e h1 h2 h3

/-- A one-option page whose text-contains fallback finds no match. -/
def c4OneOptionPage : CmdPageRun :=
  { timeInputVisible := true, addEntryVisible := true, optionsWait := none
    optionCount := 1, textMatchClick := some ("Timeout 30000ms exceeded.")
    verifyWait := none, verifyTextRead := none, verifyTextReadOnFail := none
    verifyShot := none, submitClick := none }

/-- C4 witness: the fallback failure clause at a concrete one-option page. -/
theorem c4_amended_witness :
    (loginCommandFormFill c4OneOptionPage ("2.5") ("Fixed bug X")).1 = false
    ∧ (Ev.clickNth projectOptionSel 1)
      ∉ (loginCommandFormFill c4OneOptionPage ("2.5") ("Fixed bug X")).2 :=
  c4_amended.2.2.1 c4OneOptionPage ("2.5") ("Fixed bug X")
    ("Timeout 30000ms exceeded.") rfl rfl (by decide) rfl

theorem regOuterExcept_ok (r : Except PyError Bool) (b : Bool)
    (h : regOuterExcept r = .ok b) : r = .ok b := by
  cases r with
  | ok a => simpa [regOuterExcept] using h
  | error e => cases e <;> simp [regOuterExcept] at h

theorem loginOuterExcept_ok (r : Except PyError Bool) (b : Bool)
    (h : loginOuterExcept r = .ok b) : r = .ok b := by
  cases r with
  | ok a => simpa [loginOuterExcept] using h
  | error e => cases e <;> simp [loginOuterExcept] at h

theorem contextExcept_ok {α : Type} (r : Except PyError α) (b : α)
    (h : contextExcept r = .ok b) : r = .ok b := by
  cases r with
  | ok a => simpa [contextExcept] using h
  | error e => cases e <;> simp [contextExcept, isPlaywrightError] at h

theorem playwrightContextRun_fst_ok (setup : SetupOutcome) (td : TeardownBehavior)
    (body : Except PyError Bool) (b : Bool)
    (h : (playwrightContextRun setup td body).1 = .ok b) : body = .ok b := by
  unfold playwrightContextRun at h
  cases setup <;> dsimp only at h
  case ok => exact contextExcept_ok _ _ (runTeardown_ok _ _ _ _ h)
  all_goals {
    have h2 := runTeardown_ok _ _ _ _ h
    simp [contextExcept, isPlaywrightError] at h2
  }

/-- With a full setup and swallowable teardown, register_hours_on_website is
the body put through the context conversion and outer handlers, with all
four resources released. -/
theorem registerHoursOnWebsite_ok_eval (td : TeardownBehavior) (h : tdSwallowable td)
    (pr : RegPageRun) (env : EnvState) (file : MMSection)
    (keyring : String → Option String) (date d hs : String) (now : Nat) (today : String) :
    registerHoursOnWebsite .ok td pr env file keyring date d hs now today
      = (regOuterExcept (contextExcept
          (registerHoursBody pr env file keyring date d hs now today).1),
        (registerHoursBody pr env file keyring date d hs now today).2,
        [.page, .context, .browser, .pw]) := by
  unfold registerHoursOnWebsite
  simp [playwrightContextRun_ok td h]

theorem registerHoursBody_neverOk (pr : RegPageRun) (env : EnvState) (file : MMSection)
    (keyring : String → Option String) (date d hs : String) (now : Nat) (today : String)
    (h : pr.emailVisibleAtCheck = true ∨ pr.passwordVisibleAtCheck = true
      ∨ pr.codeVisibleAtCheck = true) :
    ∀ b, (registerHoursBody pr env file keyring date d hs now today).1 ≠ .ok b := by
  intro b hb
  cases hres : resolveInBody env file keyring with
  | error e =>
    unfold registerHoursBody at hb
    rw [hres] at hb
    simp at hb
  | ok c =>
    rw [registerHoursBody_authFail pr env file keyring date d hs now today c hres h] at hb
    simp at hb

/-- The with-body of login_to_moneymonk raises when a login or code field is
still visible at the final checks and the diagnostic screenshots write
cleanly. -/
theorem loginBody_authFail (lpr : LoginPageRun) (c : Creds) (now : Nat)
    (hb : lpr.shotBeforeTotp = none) (ha : lpr.shotAfterLogin = none)
    (h : lpr.emailVisibleAtCheck = true ∨ lpr.passwordVisibleAtCheck = true
      ∨ lpr.codeVisibleAtCheck = true) :
    (loginBody lpr c now).1 = .error (.moneyMonk stillLoginMsg)
    ∨ (loginBody lpr c now).1 = .error (.moneyMonk stillTotpMsg) := by
  unfold loginBody
  simp only [hb, ha]
  rcases h with h | h | h
  · left
    simp [h]
  · cases he : lpr.emailVisibleAtCheck <;> simp [he, h]
  · cases he : lpr.emailVisibleAtCheck <;>
      cases hp : lpr.passwordVisibleAtCheck <;> simp [he, hp, h]

theorem loginBody_neverOk (lpr : LoginPageRun) (c : Creds) (now : Nat)
    (h : lpr.emailVisibleAtCheck = true ∨ lpr.passwordVisibleAtCheck = true
      ∨ lpr.codeVisibleAtCheck = true) :
    ∀ b, (loginBody lpr c now).1 ≠ .ok b := by
  intro b hb
  unfold loginBody at hb
  rcases h1 : lpr.shotBeforeTotp with _ | e1
  all_goals rw [h1] at hb
  case some => simp at hb
  rcases h2 : lpr.shotAfterLogin with _ | e2
  all_goals rw [h2] at hb
  case some => simp at hb
  rcases h with h | h | h
  · simp [h] at hb
  · cases he : lpr.emailVisibleAtCheck <;> simp [he, h] at hb
  · cases he : lpr.emailVisibleAtCheck <;>
      cases hp : lpr.passwordVisibleAtCheck <;> simp [he, hp, h] at hb

/-- C3: whenever a probe at the post-submit check point still sees the email
or password field - or the TOTP code field after an MFA round - both
register_hours_on_website and login_to_moneymonk raise a typed MoneyMonkError
(the login-failed authentication errors) and can never return success, under
any setup, teardown behavior and page run. -/
theorem c3_login_fields_visible_never_success :
    (∀ (setup : SetupOutcome) (td : TeardownBehavior) (pr : RegPageRun)
      (env : EnvState) (file : MMSection) (keyring : String → Option String)
      (date d hs : String) (now : Nat) (today : String),
      (pr.emailVisibleAtCheck = true ∨ pr.passwordVisibleAtCheck = true
        ∨ pr.codeVisibleAtCheck = true) →
      (∀ b, (registerHoursOnWebsite setup td pr env file keyring date d hs now today).1
        ≠ .ok b)
      ∧ (∀ c, tdSwallowable td → resolveInBody env file keyring = .ok c →
          (registerHoursOnWebsite .ok td pr env file keyring date d hs now today).1
            = .error (.moneyMonk loginFailedRegMsg)))
    ∧ (∀ (setup : SetupOutcome) (td : TeardownBehavior) (lpr : LoginPageRun)
      (env : EnvState) (file : MMSection) (keyring : String → Option String) (now : Nat),
      (lpr.emailVisibleAtCheck = true ∨ lpr.passwordVisibleAtCheck = true
        ∨ lpr.codeVisibleAtCheck = true) →
      (∀ b, (loginToMoneymonk setup td lpr env file keyring now).1 ≠ .ok b)
      ∧ (∀ c, tdSwallowable td → resolveInBody env file keyring = .ok c →
          lpr.shotBeforeTotp = none → lpr.shotAfterLogin = none →
          ((loginToMoneymonk .ok td lpr env file keyring now).1
              = .error (.moneyMonk stillLoginMsg)
            ∨ (loginToMoneymonk .ok td lpr env file keyring now).1
              = .error (.moneyMonk stillTotpMsg)))) := by
  constructor
  · intro setup td pr env file keyring date d hs now today h
    constructor
    · intro b hb
      unfold registerHoursOnWebsite at hb
      dsimp only at hb
      exact registerHoursBody_neverOk pr env file keyring date d hs now today h b
        (playwrightContextRun_fst_ok setup td _ b (regOuterExcept_ok _ b hb))
    · intro c htd hres
      rw [registerHoursOnWebsite_ok_eval td htd]
      rw [registerHoursBody_authFail pr env file keyring date d hs now today c hres h]
      rfl
  · intro setup td lpr env file keyring now h
    constructor
    · intro b hb
      unfold loginToMoneymonk at hb
      cases hres : resolveInBody env file keyring with
      | error e =>
        rw [hres] at hb
        cases e <;> simp [loginOuterExcept] at hb
      | ok c =>
        rw [hres] at hb
        dsimp only at hb
        exact loginBody_neverOk lpr c now h b
          (playwrightContextRun_fst_ok setup td _ b (loginOuterExcept_ok _ b hb))
    · intro c htd hres hshot1 hshot2
      unfold loginToMoneymonk
      rw [hres]
      dsimp only
      rw [playwrightContextRun_ok td htd]
      dsimp only
      rcases loginBody_authFail lpr c now hshot1 hshot2 h with hfail | hfail
      · left
        rw [hfail]
        rfl
      · right
        rw [hfail]
        rfl

/-- C3 witness: a run whose email field is still visible after submit: the
register flow reports the login-failed MoneyMonkError and not success. -/
theorem c3_witness :
    (registerHoursOnWebsite .ok tdClean
      { benignRegPage with emailVisibleAtCheck := true } envFull emptyFile emptyKeyring
      ("2024-03-01") ("Fixed bug X") ("2.5") 59 ("2024-03-01")).1
      = .error (.moneyMonk loginFailedRegMsg)
    ∧ (∀ b, (registerHoursOnWebsite .ok tdClean
      { benignRegPage with emailVisibleAtCheck := true } envFull emptyFile emptyKeyring
      ("2024-03-01") ("Fixed bug X") ("2.5") 59 ("2024-03-01")).1 ≠ .ok b) := by
  have h := (c3_login_fields_visible_never_success.1 .ok tdClean
    { benignRegPage with emailVisibleAtCheck := true } envFull emptyFile emptyKeyring
    ("2024-03-01") ("Fixed bug X") ("2.5") 59 ("2024-03-01")) (Or.inl rfl)
  have htd : tdSwallowable tdClean := by
    refine ⟨?_, ?_, ?_⟩ <;> intro e he <;> simp [tdClean] at he
  exact ⟨h.2 ⟨"https://login.example", "user@example.com", "hunter2", rfcSeed⟩
    htd (by decide), h.1⟩

/-- The trace events that fill the given selector. -/
def isFillOf (sel : String) : Ev → Bool
  | .fill s _ => s = sel
  | _ => false

/-- The trace events that navigate the page. -/
def isGoto : Ev → Bool
  | .goto _ => true
  | _ => false

/-- C10: with authentication passed but BASE_TIME_ENTRY_URL not truthy in
the environment, register_hours_on_website raises ConfigurationError no
matter what the config file or secret store hold: the base url is read from
the process environment only, and only after the login handshake - the
trace is exactly the login trace, with one password fill and one goto (the
login page; the entry page is never visited), and the session is still torn
down page, context, browser, process. -/
theorem c10_base_url_env_only_after_login (td : TeardownBehavior) (pr : RegPageRun)
    (env : EnvState) (file : MMSection) (keyring : String → Option String)
    (date d hs : String) (now : Nat) (today : String) (c : Creds)
    (htd : tdSwallowable td) (hres : resolveInBody env file keyring = .ok c)
    (hbase : truthy env.baseTimeEntryUrl = false)
    (he : pr.emailVisibleAtCheck = false) (hp : pr.passwordVisibleAtCheck = false)
    (hcode : pr.codeVisibleAtCheck = false) :
    (registerHoursOnWebsite .ok td pr env file keyring date d hs now today).1
      = .error (.configuration baseUrlMissingMsg)
    ∧ (registerHoursOnWebsite .ok td pr env file keyring date d hs now today).2.1
      = regLoginTrace pr c now
    ∧ (registerHoursOnWebsite .ok td pr env file keyring date d hs now today).2.2
      = [Resource.page, .context, .browser, .pw]
    ∧ (regLoginTrace pr c now).countP (isFillOf passwordSel) = 1
    ∧ (regLoginTrace pr c now).countP isGoto = 1
    ∧ Ev.click loginBtnSel ∈ regLoginTrace pr c now := by
  have hbody := registerHoursBody_eval pr env file keyring date d hs now today c hres he hp hcode
  have hnav : regNavigationPhase pr env (if date.isEmpty then today else date) d hs
      (regLoginTrace pr c now)
      = (.error (.configuration baseUrlMissingMsg), regLoginTrace pr c now) := by
    unfold regNavigationPhase
    simp [hbase]
  rw [registerHoursOnWebsite_ok_eval td htd, hbody, hnav]
  refine ⟨rfl, rfl, rfl, ?_, ?_, ?_⟩
  · cases hc : pr.codeVisibleAfterLogin <;>
      simp [regLoginTrace, hc, List.countP_append, List.countP_cons, isFillOf,
        emailSel, passwordSel, codeSel]
  · cases hc : pr.codeVisibleAfterLogin <;>
      simp [regLoginTrace, hc, List.countP_append, List.countP_cons, isGoto]
  · cases hc : pr.codeVisibleAfterLogin <;>
      simp [regLoginTrace, hc, List.mem_append]

/-- C10 witness: a concrete run with all credentials in the environment but
no BASE_TIME_ENTRY_URL. -/
theorem c10_base_url_env_only_after_login_witness :
    (registerHoursOnWebsite .ok tdClean benignRegPage
      { envFull with baseTimeEntryUrl := none } emptyFile emptyKeyring
      ("2024-03-01") ("Fixed bug X") ("2.5") 59 ("2024-03-01")).1
      = .error (.configuration baseUrlMissingMsg)
    ∧ (registerHoursOnWebsite .ok tdClean benignRegPage
      { envFull with baseTimeEntryUrl := none } emptyFile emptyKeyring
      ("2024-03-01") ("Fixed bug X") ("2.5") 59 ("2024-03-01")).2.2
      = [Resource.page, .context, .browser, .pw] := by
  have htd : tdSwallowable tdClean := by
    refine ⟨?_, ?_, ?_⟩ <;> intro e he <;> simp [tdClean] at he
  have h := c10_base_url_env_only_after_login tdClean benignRegPage
    { envFull with baseTimeEntryUrl := none } emptyFile emptyKeyring
    ("2024-03-01") ("Fixed bug X") ("2.5") 59 ("2024-03-01")
    ⟨"https://login.example", "user@example.com", "hunter2", rfcSeed⟩
    htd (by decide) rfl rfl rfl rfl
  exact ⟨h.1, h.2.2.1⟩

theorem regFormTimeout_fst (pr : RegPageRun) (m : String) (pre : List Ev) :
    (regFormTimeout pr m pre).1
      = (match pr.shotFormTimeout with
        | some e => .error e
        | none => .error (.moneyMonk (formElementsMsg m))) := by
  unfold regFormTimeout
  cases pr.shotFormTimeout <;> rfl

theorem regFormPhase_fst_descTimeout (pr : RegPageRun) (d hs : String) (pre : List Ev)
    (m : String) (hdw : pr.descWait = some m) :
    (regFormPhase pr d hs pre).1
      = (match pr.shotFormTimeout with
        | some e => .error e
        | none => .error (.moneyMonk (formElementsMsg m))) := by
  unfold regFormPhase
  dsimp only
  simp only [hdw]
  exact regFormTimeout_fst pr m _

theorem regFormPhase_fst_ok (pr : RegPageRun) (d hs : String) (pre : List Ev)
    (h1 : pr.descWait = none) (h2 : pr.hoursWait = none) (h3 : pr.submitWait = none)
    (h4 : pr.shotBeforeSubmit = none) (h5 : pr.shotAfterSubmit = none)
    (h6 : pr.shotAfterSubmitFinal = none) :
    (regFormPhase pr d hs pre).1 = (regPostSubmit pr d).1 := by
  unfold regFormPhase
  dsimp only
  simp only [h1, h2, h3, h4, h5, h6]

theorem regNavigationPhase_fst (pr : RegPageRun) (env : EnvState) (ed d hs : String)
    (pre : List Ev) (hbase : truthy env.baseTimeEntryUrl = true)
    (hshot : pr.shotRegistrationPage = none) :
    (regNavigationPhase pr env ed d hs pre).1
      = (regFormPhase pr d hs (pre ++ [.goto (env.baseTimeEntryUrl.getD "" ++ "?date=" ++ ed),
          .waitTimeout 2000] ++ [.screenshot ("registration_page")])).1 := by
  unfold regNavigationPhase
  simp [hbase, hshot]

theorem regPostSubmit_fst (pr : RegPageRun) (d : String) :
    (regPostSubmit pr d).1
      = (if (!pr.descVisibleCheck1 && !pr.hoursVisibleCheck1)
            || (!pr.descVisibleCheck2 && !pr.hoursVisibleCheck2) then .ok true
        else .error (.moneyMonk (regFailedMsg (regErrorScan pr errorSelectors).1))) := by
  rcases hsc : regErrorScan pr errorSelectors with ⟨em, evs⟩
  cases h1 : pr.descVisibleCheck1 <;> cases h2 : pr.hoursVisibleCheck1 <;>
  cases h3 : pr.descVisibleCheck2 <;> cases h4 : pr.hoursVisibleCheck2 <;>
    simp [regPostSubmit, regCheck2, h1, h2, h3, h4, hsc]

/-- The body result under passed authentication and a clean path up to the
form waits. -/
theorem registerHoursBody_fst_postSubmit (pr : RegPageRun) (env : EnvState)
    (file : MMSection) (keyring : String → Option String) (date d hs : String)
    (now : Nat) (today : String) (c : Creds)
    (hres : resolveInBody env file keyring = .ok c)
    (he : pr.emailVisibleAtCheck = false) (hp : pr.passwordVisibleAtCheck = false)
    (hcode : pr.codeVisibleAtCheck = false)
    (hbase : truthy env.baseTimeEntryUrl = true)
    (hshotreg : pr.shotRegistrationPage = none)
    (h1 : pr.descWait = none) (h2 : pr.hoursWait = none) (h3 : pr.submitWait = none)
    (h4 : pr.shotBeforeSubmit = none) (h5 : pr.shotAfterSubmit = none)
    (h6 : pr.shotAfterSubmitFinal = none) :
    (registerHoursBody pr env file keyring date d hs now today).1
      = (regPostSubmit pr d).1 := by
  rw [registerHoursBody_eval pr env file keyring date d hs now today c hres he hp hcode]
  rw [regNavigationPhase_fst pr env _ d hs _ hbase hshotreg]
  exact regFormPhase_fst_ok pr d hs _ h1 h2 h3 h4 h5 h6

/-- C1 amended: on runs that reach the post-submission verification, success
is returned exactly when the first check sees neither field or, failing
that, the second check sees neither field; when both checks see the form it
is a hard MoneyMonkError carrying the scanned error message; and when the
two checks agree (stable page), this is exactly: success iff the form is no
longer visible.  The flickering middle case - first check fails, second
sees nothing - returns success through the assume-success fallback of line
484. -/
theorem c1_amended (td : TeardownBehavior) (pr : RegPageRun) (env : EnvState)
    (file : MMSection) (keyring : String → Option String) (date d hs : String)
    (now : Nat) (today : String) (c : Creds)
    (htd : tdSwallowable td) (hres : resolveInBody env file keyring = .ok c)
    (he : pr.emailVisibleAtCheck = false) (hp : pr.passwordVisibleAtCheck = false)
    (hcode : pr.codeVisibleAtCheck = false)
    (hbase : truthy env.baseTimeEntryUrl = true)
    (hshotreg : pr.shotRegistrationPage = none)
    (h1 : pr.descWait = none) (h2 : pr.hoursWait = none) (h3 : pr.submitWait = none)
    (h4 : pr.shotBeforeSubmit = none) (h5 : pr.shotAfterSubmit = none)
    (h6 : pr.shotAfterSubmitFinal = none) :
    ((registerHoursOnWebsite .ok td pr env file keyring date d hs now today).1 = .ok true
      ↔ ((pr.descVisibleCheck1 = false ∧ pr.hoursVisibleCheck1 = false)
        ∨ (pr.descVisibleCheck2 = false ∧ pr.hoursVisibleCheck2 = false)))
    ∧ ((pr.descVisibleCheck1 = true ∨ pr.hoursVisibleCheck1 = true) →
        (pr.descVisibleCheck2 = true ∨ pr.hoursVisibleCheck2 = true) →
        (registerHoursOnWebsite .ok td pr env file keyring date d hs now today).1
          = .error (.moneyMonk (regFailedMsg (regErrorScan pr errorSelectors).1)))
    ∧ (pr.descVisibleCheck1 = pr.descVisibleCheck2 →
        pr.hoursVisibleCheck1 = pr.hoursVisibleCheck2 →
        ((registerHoursOnWebsite .ok td pr env file keyring date d hs now today).1 = .ok true
          ↔ (pr.descVisibleCheck2 = false ∧ pr.hoursVisibleCheck2 = false))) := by
  have hr : (registerHoursOnWebsite .ok td pr env file keyring date d hs now today).1
      = regOuterExcept (contextExcept ((regPostSubmit pr d).1)) := by
    rw [registerHoursOnWebsite_ok_eval td htd]
    dsimp only
    rw [registerHoursBody_fst_postSubmit pr env file keyring date d hs now today c
      hres he hp hcode hbase hshotreg h1 h2 h3 h4 h5 h6]
  rw [hr, regPostSubmit_fst]
  cases hc1 : pr.descVisibleCheck1 <;> cases hc2 : pr.hoursVisibleCheck1 <;>
  cases hc3 : pr.descVisibleCheck2 <;> cases hc4 : pr.hoursVisibleCheck2 <;>
    simp [contextExcept, regOuterExcept, isPlaywrightError]

/-- C1 witness: the stable-page clauses of the amended statement, at a page
whose form is gone after submission (success) via the iff. -/
theorem c1_amended_witness :
    (registerHoursOnWebsite .ok tdClean benignRegPage envFull emptyFile emptyKeyring
      ("2024-03-01") ("Fixed bug X") ("2.5") 59 ("2024-03-01")).1 = .ok true := by
  have htd : tdSwallowable tdClean := by
    refine ⟨?_, ?_, ?_⟩ <;> intro e he <;> simp [tdClean] at he
  exact ((c1_amended tdClean benignRegPage envFull emptyFile emptyKeyring
    ("2024-03-01") ("Fixed bug X") ("2.5") 59 ("2024-03-01")
    ⟨"https://login.example", "user@example.com", "hunter2", rfcSeed⟩
    htd (by decide) rfl rfl rfl (by decide) rfl rfl rfl rfl rfl rfl rfl).2.2
    rfl rfl).mpr ⟨rfl, rfl⟩

def flickerRegPage : RegPageRun := { benignRegPage with descVisibleCheck1 := true }

/-- C1 counterexample: a run on which the first post-submission probe still
sees the description field - so the verification step did not pass - while
the second check sees neither field: the call returns success through the
assume-success fallback, refuting success iff the form is no longer visible
and if the form is still visible the run is a hard failure. -/
theorem c1_counterexample :
    (registerHoursOnWebsite .ok tdClean flickerRegPage envFull emptyFile emptyKeyring
      ("2024-03-01") ("Fixed bug X") ("2.5") 59 ("2024-03-01")).1 = .ok true
    ∧ flickerRegPage.descVisibleCheck1 = true
    ∧ (!flickerRegPage.descVisibleCheck1 && !flickerRegPage.hoursVisibleCheck1) = false := by
  refine ⟨by decide, by decide, by decide⟩

/-- C8 amended: at the form-timeout failure boundary the diagnostic
screenshot is unguarded: when it succeeds the MoneyMonkError naming the
missing form elements is raised, but when it raises a browser-library error
that error propagates, is rewrapped by the context manager as a failed-to-
initialize MoneyMonkError, and the original missing-form-elements diagnosis
is lost; a non-library error propagates to the outer handlers likewise. -/
theorem c8_amended (td : TeardownBehavior) (pr : RegPageRun) (env : EnvState)
    (file : MMSection) (keyring : String → Option String) (date d hs : String)
    (now : Nat) (today : String) (c : Creds) (m : String)
    (htd : tdSwallowable td) (hres : resolveInBody env file keyring = .ok c)
    (he : pr.emailVisibleAtCheck = false) (hp : pr.passwordVisibleAtCheck = false)
    (hcode : pr.codeVisibleAtCheck = false)
    (hbase : truthy env.baseTimeEntryUrl = true)
    (hshotreg : pr.shotRegistrationPage = none)
    (hdw : pr.descWait = some m) :
    (pr.shotFormTimeout = none →
      (registerHoursOnWebsite .ok td pr env file keyring date d hs now today).1
        = .error (.moneyMonk (formElementsMsg m)))
    ∧ (∀ e, pr.shotFormTimeout = some e → isPlaywrightError e = true →
      (registerHoursOnWebsite .ok td pr env file keyring date d hs now today).1
        = .error (.moneyMonk (initFailedMsg (pyMsg e))))
    ∧ (∀ e, pr.shotFormTimeout = some e → isPlaywrightError e = false →
      (registerHoursOnWebsite .ok td pr env file keyring date d hs now today).1
        = regOuterExcept (.error e)) := by
  have hr : (registerHoursOnWebsite .ok td pr env file keyring date d hs now today).1
      = regOuterExcept (contextExcept (match pr.shotFormTimeout with
        | some e => .error e
        | none => .error (.moneyMonk (formElementsMsg m)))) := by
    rw [registerHoursOnWebsite_ok_eval td htd]
    dsimp only
    rw [registerHoursBody_eval pr env file keyring date d hs now today c hres he hp hcode]
    rw [regNavigationPhase_fst pr env _ d hs _ hbase hshotreg]
    rw [regFormPhase_fst_descTimeout pr d hs _ m hdw]
  refine ⟨?_, ?_, ?_⟩
  · intro hshot
    rw [hr, hshot]
    rfl
  · intro e hshot hpe
    rw [hr, hshot]
    cases e <;> simp [isPlaywrightError] at hpe <;>
      simp [contextExcept, regOuterExcept, isPlaywrightError, pyMsg]
  · intro e hshot hpe
    rw [hr, hshot]
    cases e <;> simp [isPlaywrightError] at hpe <;>
      simp [contextExcept, regOuterExcept, isPlaywrightError]

def c8Page : RegPageRun :=
  { benignRegPage with
    descWait := some ("Timeout 5000ms exceeded."),
    shotFormTimeout := some (.playwright ("screenshot write failed")) }

/-- C8 counterexample: the form wait times out and the diagnostic screenshot
at that failure boundary raises: the reported error is the wrapped
screenshot failure, not the missing-form-elements error - the capture
failure was not swallowed and masked the original diagnosis. -/
theorem c8_counterexample :
    (registerHoursOnWebsite .ok tdClean c8Page envFull emptyFile emptyKeyring
      ("2024-03-01") ("Fixed bug X") ("2.5") 59 ("2024-03-01")).1
      = .error (.moneyMonk (initFailedMsg ("screenshot write failed")))
    ∧ (registerHoursOnWebsite .ok tdClean c8Page envFull emptyFile emptyKeyring
      ("2024-03-01") ("Fixed bug X") ("2.5") 59 ("2024-03-01")).1
      ≠ .error (.moneyMonk (formElementsMsg ("Timeout 5000ms exceeded."))) := by
  refine ⟨by decide, by decide⟩

/-- C8 witness: the clean-capture clause of the amended statement at a page
whose form wait times out but whose screenshot succeeds. -/
theorem c8_amended_witness :
    (registerHoursOnWebsite .ok tdClean
      { benignRegPage with descWait := some ("Timeout 5000ms exceeded.") }
      envFull emptyFile emptyKeyring
      ("2024-03-01") ("Fixed bug X") ("2.5") 59 ("2024-03-01")).1
      = .error (.moneyMonk (formElementsMsg ("Timeout 5000ms exceeded."))) := by
  have htd : tdSwallowable tdClean := by
    refine ⟨?_, ?_, ?_⟩ <;> intro e he <;> simp [tdClean] at he
  exact (c8_amended tdClean
    { benignRegPage with descWait := some ("Timeout 5000ms exceeded.") }
    envFull emptyFile emptyKeyring
    ("2024-03-01") ("Fixed bug X") ("2.5") 59 ("2024-03-01")
    ⟨"https://login.example", "user@example.com", "hunter2", rfcSeed⟩
    ("Timeout 5000ms exceeded.")
    htd (by decide) rfl rfl rfl (by decide) rfl rfl).1 rfl
